import Mathlib

/-!
Verification development for the blankpage repository: a single-user memo and
cloud-clipboard application consisting of a Cloudflare Worker API backend
(`src/unnamed/part_000`, the worker's `fetch` handler) and a Vue SPA client
(`src/src/App.vue`, the editor/autosave state machine).

The backend is embedded as a pure function `workerFetch` over an explicit
server state (D1 memo table + KV store with expiry times).  The client's
autosave state machine is embedded as a step function `clientStep` over an
explicit `ClientState`, driven by events (edits, timer firings, request
completions); in-flight requests are represented as explicit lists so that
the number of simultaneously outstanding requests is observable.

Conventions:
* JS timestamps (`new Date().toISOString()`) are modelled as abstract `Nat`
  instants; only ordering and equality of timestamps matter to the claims.
* KV keys are strings in the source ("auth:token:" + t, "memo:list",
  "memo:" + id, "clip:latest"); these four families are pairwise disjoint and
  injective, so they are modelled by the injective inductive `KvKey`.
* KV values are JSON blobs written by this handler only; they are modelled in
  parsed form (`KVVal`), mirroring exactly what `JSON.stringify` receives.
* Request bodies are modelled as `Option` association lists: `none` stands
  for malformed JSON (where `readJson` returns `null`); a field value is
  `JsonVal.str s` when `typeof v === "string"` and `JsonVal.other` otherwise
  (the handler distinguishes nothing further).
-/

/-- One persisted memo row, as selected from the D1 `memos` table. -/
structure MemoRow where
  id : Nat
  content : String
  created_at : Nat
  updated_at : Nat
deriving DecidableEq

/-- A JSON field value as far as the handler inspects it: a string, or
anything else (`typeof v !== "string"`). -/
inductive JsonVal where
  | str (s : String)
  | other
deriving DecidableEq

/-- KV keys used by the worker.  `authToken t` stands for the string key
"auth:token:" ++ t, `memoList` for "memo:list" (MEMO_LIST_CACHE_KEY),
`memoItem i` for "memo:" ++ toString i, and `clipLatest` for "clip:latest"
(CLIP_CACHE_KEY).  These string families are pairwise disjoint and each is
injective, so the inductive encoding is faithful. -/
inductive KvKey where
  | authToken (t : String)
  | memoList
  | memoItem (i : Nat)
  | clipLatest
deriving DecidableEq

/-- KV values in parsed form.  `auth` is the stored string "1" under an auth
key; `memoList` / `memo` are the JSON.stringify'd cached reads; `clip` is the
clipboard payload object with its `text` and `created_at` fields. -/
inductive KVVal where
  | auth
  | memoList (l : List MemoRow)
  | memo (m : MemoRow)
  | clip (text : String) (created_at : Nat)
deriving DecidableEq

/-- The KV namespace: entries (key, value, expiry instant).  A `put` with
`expirationTtl: ttl` at instant `now` stores expiry `now + ttl`; a key is
visible only strictly before its expiry instant. -/
abbrev KvStore : Type := List (KvKey × KVVal × Nat)

/-- KV `get` at instant `now`: the latest `put` wins (entries are consed at
the front), and an entry at or past its expiry instant is absent. -/
def kvGet (kv : KvStore) (k : KvKey) (now : Nat) : Option KVVal :=
  match kv.find? (fun e => e.1 == k) with
  | some (_, v, exp) => if now < exp then some v else none
  | none => none

/-- KV `put` with an absolute expiry instant. -/
def kvPut (kv : KvStore) (k : KvKey) (v : KVVal) (exp : Nat) : KvStore :=
  (k, v, exp) :: kv

/-- KV `delete`. -/
def kvDelete (kv : KvStore) (k : KvKey) : KvStore :=
  kv.filter (fun e => !(e.1 == k))

/-- Server-side state: the KV namespace, the D1 `memos` table, and the next
auto-increment rowid the INSERT will assign (D1 `meta.last_row_id`). -/
structure ServerSt where
  kv : KvStore
  memos : List MemoRow
  nextId : Nat
deriving DecidableEq

/-- Environment bindings of the worker: `APP_PASSWORD` and the resolved
(positive) values of `getNumberEnv` for SESSION_TTL_SECONDS,
CLIP_TTL_SECONDS and CACHE_TTL_SECONDS. -/
structure WorkerEnv where
  password : String
  sessionTtl : Nat
  clipTtl : Nat
  cacheTtl : Nat
deriving DecidableEq

/-- An incoming HTTP request as far as the handler inspects it: method,
pathname (as a character list), the raw Authorization header (when present),
and the JSON body (`none` = malformed JSON). -/
structure Req where
  method : String
  path : List Char
  authHeader : Option String
  body : Option (List (String × JsonVal))
deriving DecidableEq

/-- Response bodies the handler can produce, in parsed form: an empty body
(`new Response(null, ...)`), an error-code object, a login token object, one
memo row, a memo list, or the clip payload (`text: null` when absent). -/
inductive RespBody where
  | noBody
  | err (code : String)
  | tok (t : String)
  | memo (m : MemoRow)
  | list (l : List MemoRow)
  | clip (text : Option String) (created_at : Option Nat)
deriving DecidableEq

/-- An HTTP response: status and body. -/
structure ApiResponse where
  status : Nat
  body : RespBody
deriving DecidableEq

/-- The pathname "/api" (API_PREFIX). -/
def apiPrefixPath : List Char := ['/', 'a', 'p', 'i']

/-- The pathname "/api/login". -/
def loginPath : List Char := ['/', 'a', 'p', 'i', '/', 'l', 'o', 'g', 'i', 'n']

/-- The pathname "/api/memos". -/
def memosPath : List Char := ['/', 'a', 'p', 'i', '/', 'm', 'e', 'm', 'o', 's']

/-- The pathname "/api/clip". -/
def clipPath : List Char := ['/', 'a', 'p', 'i', '/', 'c', 'l', 'i', 'p']

/-- The pathname "/api/memos/" ++ ds, for an arbitrary id segment `ds`. -/
def memoPath (ds : List Char) : List Char :=
  '/' :: 'a' :: 'p' :: 'i' :: '/' :: 'm' :: 'e' :: 'm' :: 'o' :: 's' :: '/' :: ds

/-- Decimal value of a digit string, as JS `Number` computes it on an
all-digit string. -/
def digitsVal (l : List Char) : Nat :=
  l.foldl (fun acc c => acc * 10 + (c.toNat - '0'.toNat)) 0

/-- The regex match `pathname.match(/^\/api\/memos\/(\d+)$/)`: the pathname
must be exactly "/api/memos/" followed by one or more decimal digits; on a
match the handler takes `Number` of the digit group. -/
def memoIdMatch : List Char → Option Nat
  | '/' :: 'a' :: 'p' :: 'i' :: '/' :: 'm' :: 'e' :: 'm' :: 'o' :: 's' :: '/' :: rest =>
      if rest ≠ [] ∧ rest.all Char.isDigit then some (digitsVal rest) else none
  | _ => none

/-- JS `String.prototype.split(" ")` on a character list: segments between
single spaces, empty segments preserved (never returns an empty list). -/
def splitOnSpaces : List Char → List (List Char)
  | [] => [[]]
  | c :: rest =>
      match splitOnSpaces rest with
      | [] => [[c]]
      | seg :: segs => if c = ' ' then [] :: seg :: segs else (c :: seg) :: segs

/-- `getBearerToken`: split the Authorization header (defaulted to "") on
single spaces; the first word must be "Bearer" and the second word must be a
non-empty token (JS destructuring takes the first two split components). -/
def getBearerToken (h : Option String) : Option String :=
  match splitOnSpaces (h.getD "").data with
  | ty :: tok :: _ => if ty = "Bearer".data ∧ tok ≠ [] then some ⟨tok⟩ else none
  | _ => none

/-- First field of the given name in a parsed JSON object. -/
def getField (flds : List (String × JsonVal)) (name : String) : Option JsonVal :=
  (flds.find? (fun e => e.1 == name)).map (fun e => e.2)

/-- A field that is present and a string (`typeof v === "string"`). -/
def getStrField (flds : List (String × JsonVal)) (name : String) : Option String :=
  match getField flds name with
  | some (.str s) => some s
  | _ => none

/-- The `content` string of a request body; `none` when the body is
malformed, the field is missing, or it is not a string — exactly the
condition `!body || typeof body.content !== "string"`. -/
def reqContent (b : Option (List (String × JsonVal))) : Option String :=
  b.bind (fun flds => getStrField flds "content")

/-- The `text` string of a request body (`!body || typeof body.text !==
"string"`). -/
def reqText (b : Option (List (String × JsonVal))) : Option String :=
  b.bind (fun flds => getStrField flds "text")

/-- Insert a row into a list sorted by `updated_at` descending. -/
def insertByUpdated (m : MemoRow) : List MemoRow → List MemoRow
  | [] => [m]
  | x :: xs =>
      if m.updated_at ≤ x.updated_at then x :: insertByUpdated m xs
      else m :: x :: xs

/-- `SELECT ... ORDER BY updated_at DESC`: the memo table sorted by
`updated_at` descending. -/
def sortByUpdatedDesc (l : List MemoRow) : List MemoRow :=
  l.foldr insertByUpdated []

/-- The row transformation of `UPDATE memos SET content = ?, updated_at = ?
WHERE id = ?` on a single row. -/
def updateRow (i : Nat) (s : String) (now : Nat) (r : MemoRow) : MemoRow :=
  if r.id = i then { r with content := s, updated_at := now } else r

/-- POST /api/login: password must be present, truthy and strictly equal to
APP_PASSWORD; on success a fresh opaque token is stored under its auth key
with the session TTL and returned. -/
def loginHandler (env : WorkerEnv) (freshTok : String) (now : Nat)
    (st : ServerSt) (req : Req) : ApiResponse × ServerSt :=
  match req.body with
  | some flds =>
      match getField flds "password" with
      | some (.str p) =>
          if p ≠ "" ∧ p = env.password then
            (⟨200, .tok freshTok⟩,
              { st with kv := kvPut st.kv (.authToken freshTok) .auth (now + env.sessionTtl) })
          else (⟨401, .err "invalid_credentials"⟩, st)
      | _ => (⟨401, .err "invalid_credentials"⟩, st)
  | none => (⟨401, .err "invalid_credentials"⟩, st)

/-- GET /api/memos: serve the cached list when the cache key is live,
otherwise read the table ordered by `updated_at` descending, cache it with
the cache TTL, and serve it. -/
def listHandler (env : WorkerEnv) (now : Nat) (st : ServerSt) :
    ApiResponse × ServerSt :=
  match kvGet st.kv .memoList now with
  | some (.memoList l) => (⟨200, .list l⟩, st)
  | _ =>
      let rows := sortByUpdatedDesc st.memos
      (⟨200, .list rows⟩,
        { st with kv := kvPut st.kv .memoList (.memoList rows) (now + env.cacheTtl) })

/-- POST /api/memos: `content` must be a string (empty allowed); the INSERT
assigns the next rowid and sets both timestamps to `now`; the list cache key
is deleted before responding 201 with the created row. -/
def createHandler (now : Nat) (st : ServerSt) (req : Req) :
    ApiResponse × ServerSt :=
  match reqContent req.body with
  | none => (⟨400, .err "invalid_payload"⟩, st)
  | some s =>
      let row : MemoRow := ⟨st.nextId, s, now, now⟩
      (⟨201, .memo row⟩,
        { st with
            memos := st.memos ++ [row]
            nextId := st.nextId + 1
            kv := kvDelete st.kv .memoList })

/-- GET /api/memos/id: serve the per-id cache when live, otherwise select the
row (404 when absent), cache it with the cache TTL, and serve it. -/
def memoGetHandler (env : WorkerEnv) (now : Nat) (st : ServerSt) (i : Nat) :
    ApiResponse × ServerSt :=
  match kvGet st.kv (.memoItem i) now with
  | some (.memo m) => (⟨200, .memo m⟩, st)
  | _ =>
      match st.memos.find? (fun r => r.id == i) with
      | none => (⟨404, .err "not_found"⟩, st)
      | some row =>
          (⟨200, .memo row⟩,
            { st with kv := kvPut st.kv (.memoItem i) (.memo row) (now + env.cacheTtl) })

/-- PUT /api/memos/id: `content` must be a string; the UPDATE touches the
rows whose id matches (`meta.changes` = their count); zero changes yields
404 with nothing written; otherwise both the list cache key and the per-id
cache key are deleted and the re-selected post-update row is returned. -/
def memoPutHandler (now : Nat) (st : ServerSt) (req : Req) (i : Nat) :
    ApiResponse × ServerSt :=
  match reqContent req.body with
  | none => (⟨400, .err "invalid_payload"⟩, st)
  | some s =>
      if st.memos.countP (fun r => r.id == i) = 0 then
        (⟨404, .err "not_found"⟩, st)
      else
        let memos2 := st.memos.map (updateRow i s now)
        let row := (memos2.find? (fun r => r.id == i)).getD ⟨i, s, now, now⟩
        (⟨200, .memo row⟩,
          { st with
              memos := memos2
              kv := kvDelete (kvDelete st.kv .memoList) (.memoItem i) })

/-- DELETE /api/memos/id: zero deleted rows yields 404; otherwise both cache
keys are deleted and 204 with no body is returned. -/
def memoDeleteHandler (st : ServerSt) (i : Nat) : ApiResponse × ServerSt :=
  if st.memos.countP (fun r => r.id == i) = 0 then
    (⟨404, .err "not_found"⟩, st)
  else
    (⟨204, .noBody⟩,
      { st with
          memos := st.memos.filter (fun r => !(r.id == i))
          kv := kvDelete (kvDelete st.kv .memoList) (.memoItem i) })

/-- GET /api/clip: the stored payload when the clip key is live, otherwise
the explicit no-clip sentinel `text: null`. -/
def clipGetHandler (now : Nat) (st : ServerSt) : ApiResponse × ServerSt :=
  match kvGet st.kv .clipLatest now with
  | some (.clip t c) => (⟨200, .clip (some t) (some c)⟩, st)
  | _ => (⟨200, .clip none none⟩, st)

/-- POST /api/clip: `text` must be a string (empty allowed); the single clip
slot is overwritten with a fresh TTL and the new payload returned with 201. -/
def clipPostHandler (env : WorkerEnv) (now : Nat) (st : ServerSt) (req : Req) :
    ApiResponse × ServerSt :=
  match reqText req.body with
  | none => (⟨400, .err "invalid_payload"⟩, st)
  | some t =>
      (⟨201, .clip (some t) (some now)⟩,
        { st with kv := kvPut st.kv .clipLatest (.clip t now) (now + env.clipTtl) })

/-- The clip routes and the final not_found fallback; requests that fell
through every earlier branch (including non-GET/PUT/DELETE methods on a
matched memo-id path) end here. -/
def clipOrFallback (env : WorkerEnv) (now : Nat) (st : ServerSt) (req : Req) :
    ApiResponse × ServerSt :=
  if req.path = clipPath ∧ req.method = "GET" then clipGetHandler now st
  else if req.path = clipPath ∧ req.method = "POST" then clipPostHandler env now st req
  else (⟨404, .err "not_found"⟩, st)

/-- The authenticated part of the dispatcher, in source order: memo list,
memo create, the memo-id regex block (GET/PUT/DELETE), then clip routes and
the fallback. -/
def authedHandler (env : WorkerEnv) (now : Nat) (st : ServerSt) (req : Req) :
    ApiResponse × ServerSt :=
  if req.path = memosPath ∧ req.method = "GET" then listHandler env now st
  else if req.path = memosPath ∧ req.method = "POST" then createHandler now st req
  else
    match memoIdMatch req.path with
    | some i =>
        if req.method = "GET" then memoGetHandler env now st i
        else if req.method = "PUT" then memoPutHandler now st req i
        else if req.method = "DELETE" then memoDeleteHandler st i
        else clipOrFallback env now st req
    | none => clipOrFallback env now st req

/-- The worker's `fetch` handler: CORS preflight short-circuit, the /api
prefix gate, the login route, the auth gate (`requireAuth`: a bearer token
that exists as a live KV auth key), then the authenticated routes.
`freshTok` is the value `crypto.randomUUID()` would produce, and `now` the
current instant. -/
def workerFetch (env : WorkerEnv) (freshTok : String) (now : Nat)
    (st : ServerSt) (req : Req) : ApiResponse × ServerSt :=
  if req.method = "OPTIONS" then (⟨204, .noBody⟩, st)
  else if ¬ (apiPrefixPath.isPrefixOf req.path) then (⟨404, .noBody⟩, st)
  else if req.path = loginPath ∧ req.method = "POST" then
    loginHandler env freshTok now st req
  else
    match getBearerToken req.authHeader with
    | none => (⟨401, .err "unauthorized"⟩, st)
    | some t =>
        if (kvGet st.kv (.authToken t) now).isNone then
          (⟨401, .err "unauthorized"⟩, st)
        else authedHandler env now st req

/-!
Client editor state machine (`src/src/App.vue`).

The `<script setup>` refs that the autosave contract reads or writes are
collected in `ClientState`; purely presentational refs (status strings,
`clipMeta`, `authError`, loading flags) are omitted, as no transition
branches on them.  `await apiFetch(...)` suspends the surrounding function:
issuing a request appends it to the corresponding in-flight list, and the
continuation after the `await` (success path, catch, finally) runs when the
matching response event is processed.  Timers are single-shot: a scheduled
timer is `some delay`; firing consumes it (the stale handle left in the ref
by the source is behaviourally equivalent to no timer).
-/

/-- The autosave debounce delay (AUTOSAVE_DELAY_MS). -/
def AUTOSAVE_DELAY_MS : Nat := 5000

/-- Drop leading whitespace characters from a character list. -/
def dropLeadingWs : List Char → List Char
  | [] => []
  | c :: rest => if c.isWhitespace then dropLeadingWs rest else c :: rest

/-- JS `String.prototype.trim()`: strip whitespace from both ends of the
string (ASCII whitespace suffices for the characters this client
handles). -/
def jsTrim (s : String) : String :=
  ⟨(dropLeadingWs (dropLeadingWs s.data).reverse).reverse⟩

/-- An outstanding memo save request: the trimmed content that was sent,
`some id` for a PUT of an existing memo / `none` for a POST creating one,
and the `fromAutosave` / `silent` options of the `saveMemo` call. -/
structure MemoReq where
  content : String
  target : Option Nat
  fromAutosave : Bool
  silent : Bool
deriving DecidableEq

/-- Which clip write path issued an outstanding POST /api/clip: the manual
`saveClip` button, the debounced autosave timer callback, or `clearClip`. -/
inductive ClipSrc where
  | manual
  | auto
  | clear
deriving DecidableEq

/-- An outstanding clip save request. -/
structure ClipReq where
  text : String
  src : ClipSrc
deriving DecidableEq

/-- The client refs relevant to the autosave/single-flight contract, plus
explicit in-flight request lists (so that the number of simultaneously
outstanding requests per draft is observable in the model). -/
structure ClientState where
  token : Bool
  memos : List MemoRow
  selectedId : Option Nat
  editorContent : String
  editorDirty : Bool
  memoLastSavedContent : String
  memoAutosavePending : Bool
  isSaving : Bool
  autosaveTimer : Option Nat
  memoInflight : List MemoReq
  clipText : String
  clipLastSavedText : String
  clipSaving : Bool
  clipClearing : Bool
  clipAutosavePending : Bool
  clipAutosaveTimer : Option Nat
  clipInflight : List ClipReq
deriving DecidableEq

/-- The client state right after a successful login into an empty workspace
(fresh refs, a stored token). -/
def clientInit : ClientState :=
  { token := true
    memos := []
    selectedId := none
    editorContent := ""
    editorDirty := false
    memoLastSavedContent := ""
    memoAutosavePending := false
    isSaving := false
    autosaveTimer := none
    memoInflight := []
    clipText := ""
    clipLastSavedText := ""
    clipSaving := false
    clipClearing := false
    clipAutosavePending := false
    clipAutosaveTimer := none
    clipInflight := [] }

/-- `scheduleAutosave`: bail out without a token; while a save is in flight
only set the pending flag; otherwise restart the debounce timer with the
full AUTOSAVE_DELAY_MS. -/
def scheduleAutosave (s : ClientState) : ClientState :=
  if !s.token then s
  else if s.isSaving then { s with memoAutosavePending := true }
  else { s with autosaveTimer := some AUTOSAVE_DELAY_MS }

/-- `markDirty`: set the dirty flag and (re)schedule the autosave. -/
def markDirty (s : ClientState) : ClientState :=
  scheduleAutosave { s with editorDirty := true }

/-- `selectMemo`: adopt a row as the current draft — its content replaces the
editor content, dirty is cleared, and the row's content becomes the
last-acknowledged snapshot. -/
def selectMemo (m : MemoRow) (s : ClientState) : ClientState :=
  { s with
      selectedId := some m.id
      editorContent := m.content
      editorDirty := false
      memoLastSavedContent := m.content }

/-- The `finally` block of `saveMemo`: clear `isSaving`; when the pending
flag is set, clear it and, if the draft is still dirty, call
`scheduleAutosave` (which now starts a fresh full debounce timer). -/
def saveMemoFinally (s : ClientState) : ClientState :=
  let s1 := { s with isSaving := false }
  if s1.memoAutosavePending then
    let s2 := { s1 with memoAutosavePending := false }
    if s2.editorDirty then scheduleAutosave s2 else s2
  else s1

/-- The synchronous prefix of `saveMemo` up to issuing the network request:
the `isSaving` guard, the empty-after-trim guard, the autosave idempotence
guard against the snapshot, and — for a new memo from autosave — the
minimum-length guard, whose early `return` inside `try` still runs the
`finally` block. -/
def saveMemo (fromAutosave silent : Bool) (s : ClientState) : ClientState :=
  if s.isSaving then s
  else
    let content := jsTrim s.editorContent
    if content = "" then s
    else if fromAutosave ∧ content = s.memoLastSavedContent then s
    else
      let s1 := { s with isSaving := true }
      match s1.selectedId with
      | some i =>
          { s1 with memoInflight := s1.memoInflight ++ [⟨content, some i, fromAutosave, silent⟩] }
      | none =>
          if fromAutosave ∧ content.length < 3 then saveMemoFinally s1
          else
            { s1 with memoInflight := s1.memoInflight ++ [⟨content, none, fromAutosave, silent⟩] }

/-- The memo autosave timer callback: nothing when the draft is clean,
otherwise a silent autosave attempt. -/
def memoTimerCallback (s : ClientState) : ClientState :=
  if !s.editorDirty then s else saveMemo true true s

/-- The continuation of `saveMemo` when the awaited request resolves
successfully with the canonical row `row`: the local list is updated
(replacement for a PUT, prepend for a POST), `selectMemo` reconciles the
canonical record into the draft (overwriting the editor content), dirty is
cleared, the snapshot becomes the sent content, then `finally` runs. -/
def memoRespOkStep (row : MemoRow) (s : ClientState) : ClientState :=
  match s.memoInflight with
  | [] => s
  | r :: rest =>
      let memos2 :=
        match r.target with
        | some _ => s.memos.map (fun m => if m.id == row.id then row else m)
        | none => row :: s.memos
      let s1 := selectMemo row { s with memos := memos2, memoInflight := rest }
      let s2 := { s1 with editorDirty := false, memoLastSavedContent := r.content }
      saveMemoFinally s2

/-- The continuation of `saveMemo` when the awaited request fails: on a 401
`apiFetch` clears the stored credential before throwing; the catch block
only sets a status message; then `finally` runs. -/
def memoRespErrStep (unauthorized : Bool) (s : ClientState) : ClientState :=
  match s.memoInflight with
  | [] => s
  | _ :: rest =>
      let s1 := if unauthorized then { s with token := false } else s
      saveMemoFinally { s1 with memoInflight := rest }

/-- `scheduleClipAutosave`: bail out without a token; while a manual clip
save is in flight only set the pending flag; otherwise restart the clip
debounce timer with the full AUTOSAVE_DELAY_MS. -/
def scheduleClipAutosave (s : ClientState) : ClientState :=
  if !s.token then s
  else if s.clipSaving then { s with clipAutosavePending := true }
  else { s with clipAutosaveTimer := some AUTOSAVE_DELAY_MS }

/-- `saveClip` up to its network request: guarded by `clipSaving` only. -/
def saveClip (s : ClientState) : ClientState :=
  if s.clipSaving then s
  else
    { s with
        clipSaving := true
        clipInflight := s.clipInflight ++ [⟨s.clipText, .manual⟩] }

/-- `clearClip` up to its network request: guarded by `clipClearing` only —
it neither checks nor sets `clipSaving`. -/
def clearClip (s : ClientState) : ClientState :=
  if s.clipClearing then s
  else
    { s with
        clipClearing := true
        clipInflight := s.clipInflight ++ [⟨"", .clear⟩] }

/-- The clip autosave timer callback: it bails out while a manual save is in
flight or when the text equals the last saved text, and otherwise issues the
POST directly — without setting `clipSaving`. -/
def clipTimerCallback (s : ClientState) : ClientState :=
  if s.clipSaving then s
  else if s.clipText = s.clipLastSavedText then s
  else { s with clipInflight := s.clipInflight ++ [⟨s.clipText, .auto⟩] }

/-- The `finally` block of `saveClip`: clear `clipSaving`; when the clip
pending flag is set, clear it and call `scheduleClipAutosave`
unconditionally. -/
def saveClipFinally (s : ClientState) : ClientState :=
  let s1 := { s with clipSaving := false }
  if s1.clipAutosavePending then
    scheduleClipAutosave { s1 with clipAutosavePending := false }
  else s1

/-- Completion of the clip request at position `i` of the in-flight list
with a successful response whose payload text is `text`: the manual and
autosave paths record the current clip text as last saved; `clearClip`
additionally adopts the server's payload text into the textarea. -/
def clipRespOkStep (i : Nat) (text : Option String) (s : ClientState) :
    ClientState :=
  match s.clipInflight[i]? with
  | none => s
  | some r =>
      let rest := s.clipInflight.eraseIdx i
      match r.src with
      | .manual =>
          saveClipFinally
            { s with clipLastSavedText := s.clipText, clipInflight := rest }
      | .auto =>
          { s with clipLastSavedText := s.clipText, clipInflight := rest }
      | .clear =>
          let t := text.getD ""
          { s with
              clipText := t
              clipLastSavedText := t
              clipClearing := false
              clipInflight := rest }

/-- Completion of the clip request at position `i` with a failure: a 401
clears the stored credential; then the issuing path's `finally` (if any)
runs. -/
def clipRespErrStep (i : Nat) (unauthorized : Bool) (s : ClientState) :
    ClientState :=
  match s.clipInflight[i]? with
  | none => s
  | some r =>
      let rest := s.clipInflight.eraseIdx i
      let s1 := if unauthorized then { s with token := false } else s
      let s2 := { s1 with clipInflight := rest }
      match r.src with
      | .manual => saveClipFinally s2
      | .auto => s2
      | .clear => { s2 with clipClearing := false }

/-- Arrival of a GET /api/memos response in `loadMemos`: adopt the rows and,
when no memo is selected, select the first one. -/
def loadMemosRespStep (rows : List MemoRow) (s : ClientState) : ClientState :=
  let s1 := { s with memos := rows }
  match s.selectedId, rows with
  | none, first :: _ => selectMemo first s1
  | _, _ => s1

/-- Events driving the client machine: user input, timer firings, and
request completions. -/
inductive CEvent where
  | editMemo (v : String)
  | saveClick
  | memoTimerFire
  | memoRespOk (row : MemoRow)
  | memoRespErr (unauthorized : Bool)
  | loadMemosResp (rows : List MemoRow)
  | selectMemoClick (i : Nat)
  | editClip (v : String)
  | clipSaveClick
  | clipClearClick
  | clipTimerFire
  | clipRespOk (i : Nat) (text : Option String)
  | clipRespErr (i : Nat) (unauthorized : Bool)
deriving DecidableEq

/-- One step of the client machine.  Timer-fire events consume the pending
timer (a fire without a scheduled timer is impossible and leaves the state
unchanged); response events resolve an outstanding request. -/
def clientStep (s : ClientState) : CEvent → ClientState
  | .editMemo v => markDirty { s with editorContent := v }
  | .saveClick => saveMemo false false s
  | .memoTimerFire =>
      match s.autosaveTimer with
      | none => s
      | some _ => memoTimerCallback { s with autosaveTimer := none }
  | .memoRespOk row => memoRespOkStep row s
  | .memoRespErr unauthorized => memoRespErrStep unauthorized s
  | .loadMemosResp rows => loadMemosRespStep rows s
  | .selectMemoClick i =>
      match s.memos[i]? with
      | none => s
      | some m => selectMemo m s
  | .editClip v => scheduleClipAutosave { s with clipText := v }
  | .clipSaveClick => saveClip s
  | .clipClearClick => clearClip s
  | .clipTimerFire =>
      match s.clipAutosaveTimer with
      | none => s
      | some _ => clipTimerCallback { s with clipAutosaveTimer := none }
  | .clipRespOk i text => clipRespOkStep i text s
  | .clipRespErr i unauthorized => clipRespErrStep i unauthorized s

/-- Run the client machine from the initial state over an event trace. -/
def clientRun (tr : List CEvent) : ClientState :=
  tr.foldl clientStep clientInit

/-- Single-flight bookkeeping of the memo draft: at most one outstanding
memo save, and none at all while `isSaving` is clear.  The `isSaving` guard
of `saveMemo` makes this an invariant of every reachable client state. -/
def MemoSingleFlight (s : ClientState) : Prop :=
  s.memoInflight.length ≤ 1 ∧ (s.isSaving = false → s.memoInflight = [])

/-- A method/path pair that one of the worker's route checks accepts: login,
memo list/create, the memo-id block with its three methods, or the clip
routes.  Requests whose pair is not accepted fall through to the final
not_found fallback. -/
def routeDefinedB (m : String) (p : List Char) : Bool :=
  (p == loginPath && m == "POST") ||
  (p == memosPath && (m == "GET" || m == "POST")) ||
  ((memoIdMatch p).isSome && (m == "GET" || m == "PUT" || m == "DELETE")) ||
  (p == clipPath && (m == "GET" || m == "POST"))

/-! Basic lemmas about the KV store operations. -/

theorem kvGet_delete_self (kv : KvStore) (k : KvKey) (now : Nat) :
    kvGet (kvDelete kv k) k now = none := by
  unfold kvGet kvDelete
  rw [List.find?_eq_none.mpr]
  intro e he
  rcases List.mem_filter.mp he with ⟨-, hpe⟩
  simpa using hpe

theorem find?_filter_ne (l : KvStore) (k k' : KvKey) (h : k ≠ k') :
    (l.filter (fun e => !(e.1 == k'))).find? (fun e => e.1 == k) =
      l.find? (fun e => e.1 == k) := by
  induction l with
  | nil => rfl
  | cons e rest ih =>
      rw [List.filter_cons]
      by_cases he : e.1 = k'
      · have hdrop : (!(e.1 == k')) = false := by simp [he]
        have h2 : ¬((e.1 == k) = true) := by
          simp only [beq_iff_eq]
          rw [he]
          exact fun hh => h hh.symm
        rw [hdrop, if_neg (by simp), ih, List.find?_cons_of_neg (p := fun x : KvKey × KVVal × Nat => x.1 == k) (a := e) rest h2]
      · have hkeep : (!(e.1 == k')) = true := by simp [he]
        rw [hkeep, if_pos rfl]
        by_cases h2 : (e.1 == k) = true
        · rw [List.find?_cons_of_pos (p := fun x : KvKey × KVVal × Nat => x.1 == k) (a := e) _ h2,
              List.find?_cons_of_pos (p := fun x : KvKey × KVVal × Nat => x.1 == k) (a := e) _ h2]
        · rw [List.find?_cons_of_neg (p := fun x : KvKey × KVVal × Nat => x.1 == k) (a := e) _ h2,
              List.find?_cons_of_neg (p := fun x : KvKey × KVVal × Nat => x.1 == k) (a := e) _ h2, ih]

theorem kvGet_delete_ne (kv : KvStore) (k k' : KvKey) (now : Nat)
    (h : k ≠ k') : kvGet (kvDelete kv k') k now = kvGet kv k now := by
  unfold kvGet kvDelete
  rw [find?_filter_ne kv k k' h]

theorem kvGet_put_self (kv : KvStore) (k : KvKey) (v : KVVal) (exp now : Nat) :
    kvGet (kvPut kv k v exp) k now = if now < exp then some v else none := by
  simp [kvGet, kvPut, List.find?]

theorem kvGet_put_ne (kv : KvStore) (k k' : KvKey) (v : KVVal) (exp now : Nat)
    (h : k ≠ k') : kvGet (kvPut kv k' v exp) k now = kvGet kv k now := by
  have : (k' == k) = false := by
    simp
    intro hkk
    exact h hkk.symm
  simp [kvGet, kvPut, List.find?, this]

/-! Route-shape lemmas: the memo-id path family is disjoint from the fixed
routes, and the regex match reduces on it. -/

theorem memoPath_ne_memosPath (ds : List Char) : memoPath ds ≠ memosPath := by
  simp [memoPath, memosPath]

theorem memoPath_ne_loginPath (ds : List Char) : memoPath ds ≠ loginPath := by
  simp [memoPath, loginPath]

theorem memoPath_ne_clipPath (ds : List Char) : memoPath ds ≠ clipPath := by
  simp [memoPath, clipPath]

theorem apiPrefix_memoPath (ds : List Char) :
    apiPrefixPath.isPrefixOf (memoPath ds) = true := rfl

theorem memoIdMatch_memoPath (ds : List Char) :
    memoIdMatch (memoPath ds) =
      if ds ≠ [] ∧ ds.all Char.isDigit then some (digitsVal ds) else none := rfl

/-! Dispatch lemmas: under a live bearer token the worker's `fetch` reduces
to the matched route handler. -/

theorem workerFetch_authed (env : WorkerEnv) (ftok : String) (now : Nat)
    (st : ServerSt) (req : Req) (t : String)
    (hm : req.method ≠ "OPTIONS")
    (hp : apiPrefixPath.isPrefixOf req.path = true)
    (hl : ¬(req.path = loginPath ∧ req.method = "POST"))
    (hb : getBearerToken req.authHeader = some t)
    (ha : (kvGet st.kv (.authToken t) now).isSome = true) :
    workerFetch env ftok now st req = authedHandler env now st req := by
  have h401 : ¬((kvGet st.kv (.authToken t) now).isNone = true) := by
    intro hn
    rw [Option.isNone_iff_eq_none] at hn
    rw [hn] at ha
    simp at ha
  simp only [workerFetch, hb]
  rw [if_neg hm, if_neg (not_not_intro hp), if_neg hl, if_neg h401]

theorem authed_list (env : WorkerEnv) (now : Nat) (st : ServerSt)
    (h : Option String) (b : Option (List (String × JsonVal))) :
    authedHandler env now st ⟨"GET", memosPath, h, b⟩ = listHandler env now st := by
  simp [authedHandler]

theorem authed_create (env : WorkerEnv) (now : Nat) (st : ServerSt)
    (h : Option String) (b : Option (List (String × JsonVal))) :
    authedHandler env now st ⟨"POST", memosPath, h, b⟩ =
      createHandler now st ⟨"POST", memosPath, h, b⟩ := by
  simp [authedHandler]

theorem authed_put (env : WorkerEnv) (now : Nat) (st : ServerSt)
    (h : Option String) (b : Option (List (String × JsonVal))) (ds : List Char)
    (h1 : ds ≠ []) (h2 : ds.all Char.isDigit = true) :
    authedHandler env now st ⟨"PUT", memoPath ds, h, b⟩ =
      memoPutHandler now st ⟨"PUT", memoPath ds, h, b⟩ (digitsVal ds) := by
  unfold authedHandler
  rw [if_neg (by simp [memoPath_ne_memosPath ds]),
      if_neg (by simp [memoPath_ne_memosPath ds]),
      memoIdMatch_memoPath, if_pos ⟨h1, h2⟩]
  simp

theorem authed_delete (env : WorkerEnv) (now : Nat) (st : ServerSt)
    (h : Option String) (b : Option (List (String × JsonVal))) (ds : List Char)
    (h1 : ds ≠ []) (h2 : ds.all Char.isDigit = true) :
    authedHandler env now st ⟨"DELETE", memoPath ds, h, b⟩ =
      memoDeleteHandler st (digitsVal ds) := by
  unfold authedHandler
  rw [if_neg (by simp [memoPath_ne_memosPath ds]),
      if_neg (by simp [memoPath_ne_memosPath ds]),
      memoIdMatch_memoPath, if_pos ⟨h1, h2⟩]
  simp

theorem memoIdMatch_clipPath : memoIdMatch clipPath = none := rfl

theorem clipPath_ne_memosPath : clipPath ≠ memosPath := by decide

theorem authed_clipGet (env : WorkerEnv) (now : Nat) (st : ServerSt)
    (h : Option String) (b : Option (List (String × JsonVal))) :
    authedHandler env now st ⟨"GET", clipPath, h, b⟩ = clipGetHandler now st := by
  unfold authedHandler
  rw [if_neg (by simp [clipPath_ne_memosPath]), if_neg (by simp [clipPath_ne_memosPath]),
      memoIdMatch_clipPath]
  simp [clipOrFallback]

theorem authed_clipPost (env : WorkerEnv) (now : Nat) (st : ServerSt)
    (h : Option String) (b : Option (List (String × JsonVal))) :
    authedHandler env now st ⟨"POST", clipPath, h, b⟩ =
      clipPostHandler env now st ⟨"POST", clipPath, h, b⟩ := by
  unfold authedHandler
  rw [if_neg (by simp [clipPath_ne_memosPath]), if_neg (by simp [clipPath_ne_memosPath]),
      memoIdMatch_clipPath]
  simp [clipOrFallback]

/-! Claim C3. -/

/-- Claim C3, counterexample.  The claim states that an empty `content`
string on an authenticated POST /api/memos yields an `invalid_payload`
client error.  On the code it does not: `typeof "" === "string"`, so the
validation passes and the handler creates a memo with empty content and
responds 201.  Concretely: with a live session token "tkn", posting
body content = "" returns status 201 with the created row, not 400. -/
theorem c3_counterexample :
    (workerFetch ⟨"pw", 100, 100, 60⟩ "x" 5 ⟨[(.authToken "tkn", .auth, 1000)], [], 1⟩
        ⟨"POST", memosPath, some "Bearer tkn", some [("content", .str "")]⟩).1 =
      ⟨201, .memo ⟨1, "", 5, 5⟩⟩ ∧
    (workerFetch ⟨"pw", 100, 100, 60⟩ "x" 5 ⟨[(.authToken "tkn", .auth, 1000)], [], 1⟩
        ⟨"POST", memosPath, some "Bearer tkn", some [("content", .str "")]⟩).1.status ≠ 400 := by
  constructor
  · decide
  · decide

/-- Claim C3, amended: for every authenticated POST /api/memos, a missing or
non-string `content` field (including a malformed body) yields the
`invalid_payload` client error with nothing written; a string `content` —
empty included — creates the memo with `created_at` equal to `updated_at`
equal to the current time and the next store-assigned identifier, deletes
the list cache key (so it is gone from the resulting state), and returns the
created record with status 201. -/
theorem c3_amended (env : WorkerEnv) (ftok : String) (now : Nat) (st : ServerSt)
    (h : Option String) (t : String) (b : Option (List (String × JsonVal)))
    (hb : getBearerToken h = some t)
    (ha : (kvGet st.kv (.authToken t) now).isSome = true) :
    (reqContent b = none →
      workerFetch env ftok now st ⟨"POST", memosPath, h, b⟩ =
        (⟨400, .err "invalid_payload"⟩, st)) ∧
    (∀ s, reqContent b = some s →
      workerFetch env ftok now st ⟨"POST", memosPath, h, b⟩ =
        (⟨201, .memo ⟨st.nextId, s, now, now⟩⟩,
          { st with
              memos := st.memos ++ [⟨st.nextId, s, now, now⟩]
              nextId := st.nextId + 1
              kv := kvDelete st.kv .memoList }) ∧
      kvGet (kvDelete st.kv .memoList) .memoList now = none) := by
  have hdisp : workerFetch env ftok now st ⟨"POST", memosPath, h, b⟩ =
      createHandler now st ⟨"POST", memosPath, h, b⟩ := by
    rw [workerFetch_authed env ftok now st ⟨"POST", memosPath, h, b⟩ t
          (show ("POST" : String) ≠ "OPTIONS" from by decide)
          (show apiPrefixPath.isPrefixOf memosPath = true from by decide)
          (show ¬(memosPath = loginPath ∧ ("POST" : String) = "POST") from by decide) hb ha,
        authed_create]
  refine ⟨fun hc => ?_, fun s hc => ⟨?_, kvGet_delete_self st.kv .memoList now⟩⟩
  · rw [hdisp]
    unfold createHandler
    rw [hc]
  · rw [hdisp]
    unfold createHandler
    rw [hc]

/-- Witness for `c3_amended` at a concrete input: a live token, an empty
store, and a body whose content is the string "hi". -/
theorem c3_witness :
    getBearerToken (some "Bearer tkn") = some "tkn" ∧
    (kvGet [(KvKey.authToken "tkn", KVVal.auth, 1000)] (.authToken "tkn") 5).isSome = true ∧
    reqContent (some [("content", .str "hi")]) = some "hi" ∧
    (workerFetch ⟨"pw", 100, 100, 60⟩ "x" 5 ⟨[(.authToken "tkn", .auth, 1000)], [], 1⟩
        ⟨"POST", memosPath, some "Bearer tkn", some [("content", .str "hi")]⟩ =
      (⟨201, .memo ⟨1, "hi", 5, 5⟩⟩,
        { kv := kvDelete [(KvKey.authToken "tkn", KVVal.auth, 1000)] .memoList
          memos := [⟨1, "hi", 5, 5⟩]
          nextId := 2 }) ∧
      kvGet (kvDelete [(KvKey.authToken "tkn", KVVal.auth, 1000)] .memoList) .memoList 5 = none) :=
  ⟨by decide, by decide, by decide,
    (c3_amended ⟨"pw", 100, 100, 60⟩ "x" 5 ⟨[(.authToken "tkn", .auth, 1000)], [], 1⟩
        (some "Bearer tkn") "tkn" (some [("content", .str "hi")])
        (by decide) (by decide)).2 "hi" (by decide)⟩

/-! Composite dispatch lemmas at the `workerFetch` level. -/

theorem workerFetch_list (env : WorkerEnv) (ftok : String) (now : Nat)
    (st : ServerSt) (h : Option String) (b : Option (List (String × JsonVal)))
    (t : String) (hb : getBearerToken h = some t)
    (ha : (kvGet st.kv (.authToken t) now).isSome = true) :
    workerFetch env ftok now st ⟨"GET", memosPath, h, b⟩ = listHandler env now st := by
  rw [workerFetch_authed env ftok now st ⟨"GET", memosPath, h, b⟩ t
        (show ("GET" : String) ≠ "OPTIONS" from by decide)
        (show apiPrefixPath.isPrefixOf memosPath = true from by decide)
        (show ¬(memosPath = loginPath ∧ ("GET" : String) = "POST") from by decide) hb ha,
      authed_list]

theorem workerFetch_create (env : WorkerEnv) (ftok : String) (now : Nat)
    (st : ServerSt) (h : Option String) (b : Option (List (String × JsonVal)))
    (t : String) (hb : getBearerToken h = some t)
    (ha : (kvGet st.kv (.authToken t) now).isSome = true) :
    workerFetch env ftok now st ⟨"POST", memosPath, h, b⟩ =
      createHandler now st ⟨"POST", memosPath, h, b⟩ := by
  rw [workerFetch_authed env ftok now st ⟨"POST", memosPath, h, b⟩ t
        (show ("POST" : String) ≠ "OPTIONS" from by decide)
        (show apiPrefixPath.isPrefixOf memosPath = true from by decide)
        (show ¬(memosPath = loginPath ∧ ("POST" : String) = "POST") from by decide) hb ha,
      authed_create]

theorem workerFetch_put (env : WorkerEnv) (ftok : String) (now : Nat)
    (st : ServerSt) (h : Option String) (b : Option (List (String × JsonVal)))
    (ds : List Char) (h1 : ds ≠ []) (h2 : ds.all Char.isDigit = true)
    (t : String) (hb : getBearerToken h = some t)
    (ha : (kvGet st.kv (.authToken t) now).isSome = true) :
    workerFetch env ftok now st ⟨"PUT", memoPath ds, h, b⟩ =
      memoPutHandler now st ⟨"PUT", memoPath ds, h, b⟩ (digitsVal ds) := by
  rw [workerFetch_authed env ftok now st ⟨"PUT", memoPath ds, h, b⟩ t
        (show ("PUT" : String) ≠ "OPTIONS" from by decide)
        (apiPrefix_memoPath ds)
        (fun hc => memoPath_ne_loginPath ds hc.1) hb ha,
      authed_put env now st h b ds h1 h2]

theorem workerFetch_delete (env : WorkerEnv) (ftok : String) (now : Nat)
    (st : ServerSt) (h : Option String) (b : Option (List (String × JsonVal)))
    (ds : List Char) (h1 : ds ≠ []) (h2 : ds.all Char.isDigit = true)
    (t : String) (hb : getBearerToken h = some t)
    (ha : (kvGet st.kv (.authToken t) now).isSome = true) :
    workerFetch env ftok now st ⟨"DELETE", memoPath ds, h, b⟩ =
      memoDeleteHandler st (digitsVal ds) := by
  rw [workerFetch_authed env ftok now st ⟨"DELETE", memoPath ds, h, b⟩ t
        (show ("DELETE" : String) ≠ "OPTIONS" from by decide)
        (apiPrefix_memoPath ds)
        (fun hc => memoPath_ne_loginPath ds hc.1) hb ha,
      authed_delete env now st h b ds h1 h2]

theorem workerFetch_clipGet (env : WorkerEnv) (ftok : String) (now : Nat)
    (st : ServerSt) (h : Option String) (b : Option (List (String × JsonVal)))
    (t : String) (hb : getBearerToken h = some t)
    (ha : (kvGet st.kv (.authToken t) now).isSome = true) :
    workerFetch env ftok now st ⟨"GET", clipPath, h, b⟩ = clipGetHandler now st := by
  rw [workerFetch_authed env ftok now st ⟨"GET", clipPath, h, b⟩ t
        (show ("GET" : String) ≠ "OPTIONS" from by decide)
        (show apiPrefixPath.isPrefixOf clipPath = true from by decide)
        (show ¬(clipPath = loginPath ∧ ("GET" : String) = "POST") from by decide) hb ha,
      authed_clipGet]

theorem workerFetch_clipPost (env : WorkerEnv) (ftok : String) (now : Nat)
    (st : ServerSt) (h : Option String) (b : Option (List (String × JsonVal)))
    (t : String) (hb : getBearerToken h = some t)
    (ha : (kvGet st.kv (.authToken t) now).isSome = true) :
    workerFetch env ftok now st ⟨"POST", clipPath, h, b⟩ =
      clipPostHandler env now st ⟨"POST", clipPath, h, b⟩ := by
  rw [workerFetch_authed env ftok now st ⟨"POST", clipPath, h, b⟩ t
        (show ("POST" : String) ≠ "OPTIONS" from by decide)
        (show apiPrefixPath.isPrefixOf clipPath = true from by decide)
        (show ¬(clipPath = loginPath ∧ ("POST" : String) = "POST") from by decide) hb ha,
      authed_clipPost]

/-! Lemmas about the UPDATE row transformation. -/

theorem updateRow_id (i : Nat) (s : String) (now : Nat) (r : MemoRow) :
    (updateRow i s now r).id = r.id := by
  unfold updateRow
  split <;> rfl

theorem find?_map_updateRow (i : Nat) (s : String) (now : Nat) (l : List MemoRow) :
    (l.map (updateRow i s now)).find? (fun r => r.id == i) =
      (l.find? (fun r => r.id == i)).map (updateRow i s now) := by
  rw [List.find?_map]
  have hp : ((fun r : MemoRow => r.id == i) ∘ updateRow i s now) =
      (fun r : MemoRow => r.id == i) := by
    funext r
    simp [Function.comp, updateRow_id]
  rw [hp]

theorem countP_id_eq_zero_iff (l : List MemoRow) (i : Nat) :
    l.countP (fun r => r.id == i) = 0 ↔ l.find? (fun r => r.id == i) = none := by
  rw [List.countP_eq_zero, List.find?_eq_none]

/-! Claim C5. -/

/-- Claim C5: for every authenticated PUT /api/memos/id with a string
`content` field, when no memo with that identifier exists the handler
returns 404 `not_found` and writes nothing (state unchanged); otherwise it
sets `updated_at` to the current time, leaves `created_at` and the
identifier unchanged, deletes both the list cache key and that identifier's
cache key (both are absent from the resulting store), and returns the
canonical post-update record with status 200. -/
theorem c5_put_semantics (env : WorkerEnv) (ftok : String) (now : Nat)
    (st : ServerSt) (h : Option String) (b : Option (List (String × JsonVal)))
    (ds : List Char) (h1 : ds ≠ []) (h2 : ds.all Char.isDigit = true)
    (t : String) (hb : getBearerToken h = some t)
    (ha : (kvGet st.kv (.authToken t) now).isSome = true)
    (s : String) (hc : reqContent b = some s) :
    (st.memos.find? (fun r => r.id == digitsVal ds) = none →
      workerFetch env ftok now st ⟨"PUT", memoPath ds, h, b⟩ =
        (⟨404, .err "not_found"⟩, st)) ∧
    (∀ r0, st.memos.find? (fun r => r.id == digitsVal ds) = some r0 →
      workerFetch env ftok now st ⟨"PUT", memoPath ds, h, b⟩ =
        (⟨200, .memo ⟨r0.id, s, r0.created_at, now⟩⟩,
          { st with
              memos := st.memos.map (updateRow (digitsVal ds) s now)
              kv := kvDelete (kvDelete st.kv .memoList) (.memoItem (digitsVal ds)) }) ∧
      kvGet (kvDelete (kvDelete st.kv .memoList) (.memoItem (digitsVal ds)))
        .memoList now = none ∧
      kvGet (kvDelete (kvDelete st.kv .memoList) (.memoItem (digitsVal ds)))
        (.memoItem (digitsVal ds)) now = none) := by
  have hdisp := workerFetch_put env ftok now st h b ds h1 h2 t hb ha
  constructor
  · intro hnone
    rw [hdisp]
    simp only [memoPutHandler, hc]
    rw [if_pos ((countP_id_eq_zero_iff st.memos (digitsVal ds)).mpr hnone)]
  · intro r0 hsome
    have hcount : ¬(st.memos.countP (fun r => r.id == digitsVal ds) = 0) := by
      rw [countP_id_eq_zero_iff st.memos (digitsVal ds), hsome]
      simp
    have hid : r0.id = digitsVal ds := by
      have := List.find?_some hsome
      simpa using this
    refine ⟨?_, ?_, kvGet_delete_self _ _ _⟩
    · rw [hdisp]
      simp only [memoPutHandler, hc]
      rw [if_neg hcount, find?_map_updateRow, hsome]
      have hrow : updateRow (digitsVal ds) s now r0 = ⟨r0.id, s, r0.created_at, now⟩ := by
        unfold updateRow
        rw [if_pos hid]
      simp [hrow]
    · rw [kvGet_delete_ne _ _ _ _ (by simp), kvGet_delete_self]

/-- Witness for `c5_put_semantics`: updating memo 7 from content "a" to "b"
at instant 9 keeps id and `created_at`, advances `updated_at`, and clears
both cache keys. -/
theorem c5_witness :
    (List.find? (fun r => r.id == digitsVal ['7']) [(⟨7, "a", 2, 2⟩ : MemoRow)] =
      some ⟨7, "a", 2, 2⟩) ∧
    (workerFetch ⟨"pw", 100, 100, 60⟩ "x" 9
        ⟨[(.authToken "tkn", .auth, 1000)], [⟨7, "a", 2, 2⟩], 8⟩
        ⟨"PUT", memoPath ['7'], some "Bearer tkn", some [("content", .str "b")]⟩ =
      (⟨200, .memo ⟨7, "b", 2, 9⟩⟩,
        { kv := kvDelete (kvDelete [(KvKey.authToken "tkn", KVVal.auth, 1000)] .memoList)
            (.memoItem (digitsVal ['7']))
          memos := List.map (updateRow (digitsVal ['7']) "b" 9) [⟨7, "a", 2, 2⟩]
          nextId := 8 }) ∧
      kvGet (kvDelete (kvDelete [(KvKey.authToken "tkn", KVVal.auth, 1000)] .memoList)
        (.memoItem (digitsVal ['7']))) .memoList 9 = none ∧
      kvGet (kvDelete (kvDelete [(KvKey.authToken "tkn", KVVal.auth, 1000)] .memoList)
        (.memoItem (digitsVal ['7']))) (.memoItem (digitsVal ['7'])) 9 = none) :=
  ⟨by decide,
    (c5_put_semantics ⟨"pw", 100, 100, 60⟩ "x" 9
        ⟨[(.authToken "tkn", .auth, 1000)], [⟨7, "a", 2, 2⟩], 8⟩
        (some "Bearer tkn") (some [("content", .str "b")]) ['7']
        (by decide) (by decide) "tkn" (by decide) (by decide) "b" (by decide)).2
      ⟨7, "a", 2, 2⟩ (by decide)⟩

/-- GET /api/memos on a cache miss reads the table sorted by `updated_at`
descending and caches it. -/
theorem listHandler_miss (env : WorkerEnv) (now : Nat) (st : ServerSt)
    (hmiss : kvGet st.kv .memoList now = none) :
    listHandler env now st =
      (⟨200, .list (sortByUpdatedDesc st.memos)⟩,
        { st with kv := (kvPut st.kv .memoList (.memoList (sortByUpdatedDesc st.memos))
            (now + env.cacheTtl)) }) := by
  simp only [listHandler, hmiss]

/-! Claim C4. -/

/-- Claim C4: after any successful (2xx) memo write — create, update or
delete — a list read performed on the resulting state returns exactly the
durable store's rows (sorted by `updated_at` descending), never stale cached
content: every write path deletes the list cache key before responding. -/
theorem c4_list_after_write (env : WorkerEnv) (ftok ftok2 : String)
    (now now' : Nat) (st : ServerSt) (h h' : Option String) (t t' : String)
    (req : Req) (b' : Option (List (String × JsonVal)))
    (hb : getBearerToken h = some t)
    (ha : (kvGet st.kv (.authToken t) now).isSome = true)
    (hb' : getBearerToken h' = some t')
    (ha' : (kvGet st.kv (.authToken t') now').isSome = true)
    (hw : (∃ b, req = ⟨"POST", memosPath, h, b⟩) ∨
          (∃ ds b, ds ≠ [] ∧ ds.all Char.isDigit = true ∧
            (req = ⟨"PUT", memoPath ds, h, b⟩ ∨ req = ⟨"DELETE", memoPath ds, h, b⟩)))
    (hs : 200 ≤ (workerFetch env ftok now st req).1.status)
    (hs2 : (workerFetch env ftok now st req).1.status < 300) :
    (workerFetch env ftok2 now' (workerFetch env ftok now st req).2
        ⟨"GET", memosPath, h', b'⟩).1 =
      ⟨200, .list (sortByUpdatedDesc (workerFetch env ftok now st req).2.memos)⟩ := by
  rcases hw with ⟨b, rfl⟩ | ⟨ds, b, h1, h2, rfl | rfl⟩
  · rw [workerFetch_create env ftok now st h b t hb ha] at hs2 ⊢
    cases hcr : reqContent b with
    | none => simp [createHandler, hcr] at hs2
    | some s =>
        simp only [createHandler, hcr]
        have ha2 : (kvGet (kvDelete st.kv .memoList) (.authToken t') now').isSome = true := by
          rw [kvGet_delete_ne _ _ _ _ (by simp)]
          exact ha'
        rw [workerFetch_list env ftok2 now' _ h' b' t' hb' ha2,
          listHandler_miss env now' _ (kvGet_delete_self _ _ _)]
  · rw [workerFetch_put env ftok now st h b ds h1 h2 t hb ha] at hs2 ⊢
    cases hcr : reqContent b with
    | none => simp [memoPutHandler, hcr] at hs2
    | some s =>
        by_cases hcount : st.memos.countP (fun r => r.id == digitsVal ds) = 0
        · simp [memoPutHandler, hcr, hcount] at hs2
        · simp only [memoPutHandler, hcr, if_neg hcount]
          have ha2 : (kvGet (kvDelete (kvDelete st.kv .memoList) (.memoItem (digitsVal ds)))
              (.authToken t') now').isSome = true := by
            rw [kvGet_delete_ne _ _ _ _ (by simp), kvGet_delete_ne _ _ _ _ (by simp)]
            exact ha'
          rw [workerFetch_list env ftok2 now' _ h' b' t' hb' ha2,
            listHandler_miss env now' _
              (by rw [kvGet_delete_ne _ _ _ _ (by simp)]; exact kvGet_delete_self _ _ _)]
  · rw [workerFetch_delete env ftok now st h b ds h1 h2 t hb ha] at hs2 ⊢
    by_cases hcount : st.memos.countP (fun r => r.id == digitsVal ds) = 0
    · simp [memoDeleteHandler, hcount] at hs2
    · simp only [memoDeleteHandler, if_neg hcount]
      have ha2 : (kvGet (kvDelete (kvDelete st.kv .memoList) (.memoItem (digitsVal ds)))
          (.authToken t') now').isSome = true := by
        rw [kvGet_delete_ne _ _ _ _ (by simp), kvGet_delete_ne _ _ _ _ (by simp)]
        exact ha'
      rw [workerFetch_list env ftok2 now' _ h' b' t' hb' ha2,
        listHandler_miss env now' _
          (by rw [kvGet_delete_ne _ _ _ _ (by simp)]; exact kvGet_delete_self _ _ _)]

/-- Witness for `c4_list_after_write`: create a memo at instant 5, then read
the list at instant 6 — the read returns the post-write table. -/
theorem c4_witness :
    (200 ≤ (workerFetch ⟨"pw", 100, 100, 60⟩ "x" 5
        ⟨[(.authToken "tkn", .auth, 1000)], [], 1⟩
        ⟨"POST", memosPath, some "Bearer tkn", some [("content", .str "hi")]⟩).1.status) ∧
    ((workerFetch ⟨"pw", 100, 100, 60⟩ "x" 5
        ⟨[(.authToken "tkn", .auth, 1000)], [], 1⟩
        ⟨"POST", memosPath, some "Bearer tkn", some [("content", .str "hi")]⟩).1.status < 300) ∧
    (workerFetch ⟨"pw", 100, 100, 60⟩ "y" 6
        (workerFetch ⟨"pw", 100, 100, 60⟩ "x" 5
          ⟨[(.authToken "tkn", .auth, 1000)], [], 1⟩
          ⟨"POST", memosPath, some "Bearer tkn", some [("content", .str "hi")]⟩).2
        ⟨"GET", memosPath, some "Bearer tkn", none⟩).1 =
      ⟨200, .list (sortByUpdatedDesc
        (workerFetch ⟨"pw", 100, 100, 60⟩ "x" 5
          ⟨[(.authToken "tkn", .auth, 1000)], [], 1⟩
          ⟨"POST", memosPath, some "Bearer tkn", some [("content", .str "hi")]⟩).2.memos)⟩ :=
  ⟨by decide, by decide,
    c4_list_after_write ⟨"pw", 100, 100, 60⟩ "x" "y" 5 6
      ⟨[(.authToken "tkn", .auth, 1000)], [], 1⟩
      (some "Bearer tkn") (some "Bearer tkn") "tkn" "tkn"
      ⟨"POST", memosPath, some "Bearer tkn", some [("content", .str "hi")]⟩ none
      (by decide) (by decide) (by decide) (by decide)
      (Or.inl ⟨some [("content", .str "hi")], rfl⟩) (by decide) (by decide)⟩

/-! Claim C8. -/

/-- Claim C8: for any string `txt` (the empty string included), an
authenticated clip save at instant `now` returns 201 with payload text `txt`
and `created_at = now`, and a clip read on the resulting state at any
instant before the expiry `now + clipTtl` returns exactly that payload; a
clip read while no live clip entry exists (never saved, or expired) returns
the distinct sentinel `text: null` with no timestamp. -/
theorem c8_clip_round_trip (env : WorkerEnv) (ftok ftok2 : String)
    (now now' : Nat) (st : ServerSt) (h h' : Option String) (t t' : String)
    (b b' : Option (List (String × JsonVal))) (txt : String)
    (hb : getBearerToken h = some t)
    (ha : (kvGet st.kv (.authToken t) now).isSome = true)
    (hb' : getBearerToken h' = some t')
    (ha' : (kvGet st.kv (.authToken t') now').isSome = true)
    (hexp : now' < now + env.clipTtl)
    (htext : reqText b = some txt) :
    (workerFetch env ftok now st ⟨"POST", clipPath, h, b⟩).1 =
      ⟨201, .clip (some txt) (some now)⟩ ∧
    (workerFetch env ftok2 now' (workerFetch env ftok now st ⟨"POST", clipPath, h, b⟩).2
        ⟨"GET", clipPath, h', b'⟩).1 = ⟨200, .clip (some txt) (some now)⟩ ∧
    (kvGet st.kv .clipLatest now = none →
      (workerFetch env ftok now st ⟨"GET", clipPath, h, b'⟩).1 = ⟨200, .clip none none⟩) := by
  have hpost := workerFetch_clipPost env ftok now st h b t hb ha
  refine ⟨?_, ?_, ?_⟩
  · rw [hpost]
    simp only [clipPostHandler, htext]
  · rw [hpost]
    simp only [clipPostHandler, htext]
    have ha2 : (kvGet (kvPut st.kv .clipLatest (.clip txt now) (now + env.clipTtl))
        (.authToken t') now').isSome = true := by
      rw [kvGet_put_ne _ _ _ _ _ _ (by simp)]
      exact ha'
    rw [workerFetch_clipGet env ftok2 now'
        { st with kv := kvPut st.kv .clipLatest (.clip txt now) (now + env.clipTtl) }
        h' b' t' hb' ha2]
    simp only [clipGetHandler, kvGet_put_self, if_pos hexp]
  · intro hmiss
    rw [workerFetch_clipGet env ftok now st h b' t hb ha]
    simp only [clipGetHandler, hmiss]

/-- Witness for `c8_clip_round_trip`, with the empty string as the saved
clip text: saving "" at instant 5 and reading at instant 6 returns the
cleared-state payload, while reading the initial (never-saved) state returns
the `text: null` sentinel. -/
theorem c8_witness :
    (6 < 5 + (⟨"pw", 100, 100, 60⟩ : WorkerEnv).clipTtl) ∧
    reqText (some [("text", .str "")]) = some "" ∧
    kvGet [(KvKey.authToken "tkn", KVVal.auth, 1000)] .clipLatest 5 = none ∧
    ((workerFetch ⟨"pw", 100, 100, 60⟩ "x" 5 ⟨[(.authToken "tkn", .auth, 1000)], [], 1⟩
        ⟨"POST", clipPath, some "Bearer tkn", some [("text", .str "")]⟩).1 =
      ⟨201, .clip (some "") (some 5)⟩ ∧
    (workerFetch ⟨"pw", 100, 100, 60⟩ "y" 6
        (workerFetch ⟨"pw", 100, 100, 60⟩ "x" 5 ⟨[(.authToken "tkn", .auth, 1000)], [], 1⟩
          ⟨"POST", clipPath, some "Bearer tkn", some [("text", .str "")]⟩).2
        ⟨"GET", clipPath, some "Bearer tkn", none⟩).1 = ⟨200, .clip (some "") (some 5)⟩ ∧
    (kvGet [(KvKey.authToken "tkn", KVVal.auth, 1000)] .clipLatest 5 = none →
      (workerFetch ⟨"pw", 100, 100, 60⟩ "x" 5 ⟨[(.authToken "tkn", .auth, 1000)], [], 1⟩
          ⟨"GET", clipPath, some "Bearer tkn", none⟩).1 = ⟨200, .clip none none⟩)) :=
  ⟨by decide, by decide, by decide,
    c8_clip_round_trip ⟨"pw", 100, 100, 60⟩ "x" "y" 5 6
      ⟨[(.authToken "tkn", .auth, 1000)], [], 1⟩
      (some "Bearer tkn") (some "Bearer tkn") "tkn" "tkn"
      (some [("text", .str "")]) none ""
      (by decide) (by decide) (by decide) (by decide) (by decide) (by decide)⟩

/-! Claim C10. -/

/-- Claim C10: an authenticated request (any non-preflight method) to a path
of the form "/api/memos/" ++ ds where ds is not a non-empty string of
decimal digits matches no route — in particular the memo-id regex rejects it
— so the handler returns 404 `not_found` and the state is unchanged (no
memo operation or store write happens). -/
theorem c10_memo_id_route (env : WorkerEnv) (ftok : String) (now : Nat)
    (st : ServerSt) (h : Option String) (b : Option (List (String × JsonVal)))
    (m : String) (ds : List Char) (t : String)
    (hm : m ≠ "OPTIONS")
    (hb : getBearerToken h = some t)
    (ha : (kvGet st.kv (.authToken t) now).isSome = true)
    (hds : ¬(ds ≠ [] ∧ ds.all Char.isDigit = true)) :
    workerFetch env ftok now st ⟨m, memoPath ds, h, b⟩ =
      (⟨404, .err "not_found"⟩, st) := by
  rw [workerFetch_authed env ftok now st ⟨m, memoPath ds, h, b⟩ t hm
      (apiPrefix_memoPath ds) (fun hc => memoPath_ne_loginPath ds hc.1) hb ha]
  unfold authedHandler
  rw [if_neg (fun hc => memoPath_ne_memosPath ds hc.1),
      if_neg (fun hc => memoPath_ne_memosPath ds hc.1),
      memoIdMatch_memoPath, if_neg hds]
  show clipOrFallback env now st ⟨m, memoPath ds, h, b⟩ = _
  unfold clipOrFallback
  rw [if_neg (fun hc => memoPath_ne_clipPath ds hc.1),
      if_neg (fun hc => memoPath_ne_clipPath ds hc.1)]

/-- Witness for `c10_memo_id_route`: an authenticated GET of
/api/memos/abc returns 404 `not_found` with the state untouched. -/
theorem c10_witness :
    (("GET" : String) ≠ "OPTIONS") ∧
    (¬((['a', 'b', 'c'] : List Char) ≠ [] ∧ ['a', 'b', 'c'].all Char.isDigit = true)) ∧
    workerFetch ⟨"pw", 100, 100, 60⟩ "x" 5 ⟨[(.authToken "tkn", .auth, 1000)], [], 1⟩
        ⟨"GET", memoPath ['a', 'b', 'c'], some "Bearer tkn", none⟩ =
      (⟨404, .err "not_found"⟩, ⟨[(.authToken "tkn", .auth, 1000)], [], 1⟩) :=
  ⟨by decide, by decide,
    c10_memo_id_route ⟨"pw", 100, 100, 60⟩ "x" 5
      ⟨[(.authToken "tkn", .auth, 1000)], [], 1⟩
      (some "Bearer tkn") none "GET" ['a', 'b', 'c'] "tkn"
      (by decide) (by decide) (by decide) (by decide)⟩

/-! Claim C6. -/

/-- Claim C6, counterexample.  The claim states that every request to an
/api route matching no defined endpoint yields 404 `not_found`.  But the
auth gate runs before the route fallback: an unauthenticated request to an
unknown /api route (here GET /api/nope with no Authorization header) yields
401 `unauthorized`, not 404. -/
theorem c6_counterexample :
    (workerFetch ⟨"pw", 100, 100, 60⟩ "x" 0 ⟨[], [], 1⟩
        ⟨"GET", ['/', 'a', 'p', 'i', '/', 'n', 'o', 'p', 'e'], none, none⟩).1 =
      ⟨401, .err "unauthorized"⟩ ∧
    (workerFetch ⟨"pw", 100, 100, 60⟩ "x" 0 ⟨[], [], 1⟩
        ⟨"GET", ['/', 'a', 'p', 'i', '/', 'n', 'o', 'p', 'e'], none, none⟩).1.status ≠ 404 := by
  constructor
  · decide
  · decide

/-- Claim C6, amended: for requests carrying a live bearer token, any
non-preflight request to an /api path that matches no defined route (unknown
path or unsupported method) yields 404 with error code `not_found`; and on
the defined body-taking endpoints, a malformed JSON body or a missing or
non-string required field yields a 400 client error with the
machine-readable code `invalid_payload`.  (Unauthenticated requests get 401
`unauthorized` from the auth gate before routing, and OPTIONS preflights get
204, so both are excluded.) -/
theorem c6_amended (env : WorkerEnv) (ftok : String) (now : Nat)
    (st : ServerSt) (h : Option String) (t : String)
    (hb : getBearerToken h = some t)
    (ha : (kvGet st.kv (.authToken t) now).isSome = true) :
    (∀ m p b, m ≠ "OPTIONS" → apiPrefixPath.isPrefixOf p = true →
      routeDefinedB m p = false →
      workerFetch env ftok now st ⟨m, p, h, b⟩ = (⟨404, .err "not_found"⟩, st)) ∧
    (∀ b, reqContent b = none →
      workerFetch env ftok now st ⟨"POST", memosPath, h, b⟩ =
        (⟨400, .err "invalid_payload"⟩, st)) ∧
    (∀ ds b, ds ≠ [] → ds.all Char.isDigit = true → reqContent b = none →
      workerFetch env ftok now st ⟨"PUT", memoPath ds, h, b⟩ =
        (⟨400, .err "invalid_payload"⟩, st)) ∧
    (∀ b, reqText b = none →
      workerFetch env ftok now st ⟨"POST", clipPath, h, b⟩ =
        (⟨400, .err "invalid_payload"⟩, st)) := by
  refine ⟨?_, ?_, ?_, ?_⟩
  · intro m p b hm hp hroute
    have hlogin : ¬(p = loginPath ∧ m = "POST") := by
      rintro ⟨rfl, rfl⟩
      simp [routeDefinedB] at hroute
    have hlistGet : ¬(p = memosPath ∧ m = "GET") := by
      rintro ⟨rfl, rfl⟩
      simp [routeDefinedB] at hroute
    have hlistPost : ¬(p = memosPath ∧ m = "POST") := by
      rintro ⟨rfl, rfl⟩
      simp [routeDefinedB] at hroute
    have hclipGet : ¬(p = clipPath ∧ m = "GET") := by
      rintro ⟨rfl, rfl⟩
      simp [routeDefinedB] at hroute
    have hclipPost : ¬(p = clipPath ∧ m = "POST") := by
      rintro ⟨rfl, rfl⟩
      simp [routeDefinedB] at hroute
    rw [workerFetch_authed env ftok now st ⟨m, p, h, b⟩ t hm hp hlogin hb ha]
    unfold authedHandler
    rw [if_neg hlistGet, if_neg hlistPost]
    rcases hmo : memoIdMatch p with _ | i
    · simp only [hmo]
      unfold clipOrFallback
      rw [if_neg hclipGet, if_neg hclipPost]
    · have hget : m ≠ "GET" := by
        rintro rfl
        simp [routeDefinedB, hmo] at hroute
      have hput : m ≠ "PUT" := by
        rintro rfl
        simp [routeDefinedB, hmo] at hroute
      have hdel : m ≠ "DELETE" := by
        rintro rfl
        simp [routeDefinedB, hmo] at hroute
      simp only [hmo]
      rw [if_neg hget, if_neg hput, if_neg hdel]
      unfold clipOrFallback
      rw [if_neg hclipGet, if_neg hclipPost]
  · intro b hc
    rw [workerFetch_create env ftok now st h b t hb ha]
    simp only [createHandler, hc]
  · intro ds b h1 h2 hc
    rw [workerFetch_put env ftok now st h b ds h1 h2 t hb ha]
    simp only [memoPutHandler, hc]
  · intro b hc
    rw [workerFetch_clipPost env ftok now st h b t hb ha]
    simp only [clipPostHandler, hc]

/-- Witness for `c6_amended`: with a live token, a GET of the unknown route
/api/nope returns 404 `not_found`, and a POST /api/memos with a malformed
body returns 400 `invalid_payload`. -/
theorem c6_witness :
    (("GET" : String) ≠ "OPTIONS") ∧
    apiPrefixPath.isPrefixOf ['/', 'a', 'p', 'i', '/', 'n', 'o', 'p', 'e'] = true ∧
    routeDefinedB "GET" ['/', 'a', 'p', 'i', '/', 'n', 'o', 'p', 'e'] = false ∧
    reqContent none = none ∧
    workerFetch ⟨"pw", 100, 100, 60⟩ "x" 5 ⟨[(.authToken "tkn", .auth, 1000)], [], 1⟩
        ⟨"GET", ['/', 'a', 'p', 'i', '/', 'n', 'o', 'p', 'e'], some "Bearer tkn", none⟩ =
      (⟨404, .err "not_found"⟩, ⟨[(.authToken "tkn", .auth, 1000)], [], 1⟩) ∧
    workerFetch ⟨"pw", 100, 100, 60⟩ "x" 5 ⟨[(.authToken "tkn", .auth, 1000)], [], 1⟩
        ⟨"POST", memosPath, some "Bearer tkn", none⟩ =
      (⟨400, .err "invalid_payload"⟩, ⟨[(.authToken "tkn", .auth, 1000)], [], 1⟩) :=
  ⟨by decide, by decide, by decide, by decide,
    (c6_amended ⟨"pw", 100, 100, 60⟩ "x" 5 ⟨[(.authToken "tkn", .auth, 1000)], [], 1⟩
        (some "Bearer tkn") "tkn" (by decide) (by decide)).1
      "GET" ['/', 'a', 'p', 'i', '/', 'n', 'o', 'p', 'e'] none
      (by decide) (by decide) (by decide),
    (c6_amended ⟨"pw", 100, 100, 60⟩ "x" 5 ⟨[(.authToken "tkn", .auth, 1000)], [], 1⟩
        (some "Bearer tkn") "tkn" (by decide) (by decide)).2.1 none (by decide)⟩

/-! Field-preservation lemmas for the client transition functions. -/

theorem scheduleAutosave_fields (s : ClientState) :
    (scheduleAutosave s).isSaving = s.isSaving ∧
    (scheduleAutosave s).memoInflight = s.memoInflight ∧
    (scheduleAutosave s).editorDirty = s.editorDirty ∧
    (scheduleAutosave s).memoLastSavedContent = s.memoLastSavedContent ∧
    (scheduleAutosave s).token = s.token ∧
    (scheduleAutosave s).clipInflight = s.clipInflight := by
  unfold scheduleAutosave
  split_ifs <;> exact ⟨rfl, rfl, rfl, rfl, rfl, rfl⟩

theorem scheduleAutosave_no_token (s : ClientState) (ht : s.token = false) :
    scheduleAutosave s = s := by
  unfold scheduleAutosave
  rw [ht]
  simp

theorem saveMemoFinally_fields (s : ClientState) :
    (saveMemoFinally s).memoInflight = s.memoInflight ∧
    (saveMemoFinally s).isSaving = false ∧
    (saveMemoFinally s).editorDirty = s.editorDirty ∧
    (saveMemoFinally s).memoLastSavedContent = s.memoLastSavedContent ∧
    (saveMemoFinally s).token = s.token ∧
    (saveMemoFinally s).clipInflight = s.clipInflight := by
  unfold saveMemoFinally
  dsimp only
  split_ifs with h1 h2
  · obtain ⟨a1, a2, a3, a4, a5, a6⟩ := scheduleAutosave_fields
      { s with isSaving := false, memoAutosavePending := false }
    exact ⟨a2, a1, a3, a4, a5, a6⟩
  · exact ⟨rfl, rfl, rfl, rfl, rfl, rfl⟩
  · exact ⟨rfl, rfl, rfl, rfl, rfl, rfl⟩

theorem saveMemoFinally_timer_no_token (s : ClientState) (ht : s.token = false) :
    (saveMemoFinally s).autosaveTimer = s.autosaveTimer := by
  unfold saveMemoFinally
  dsimp only
  split_ifs with h1 h2
  · have hsch := scheduleAutosave_no_token
      { s with isSaving := false, memoAutosavePending := false } ht
    rw [hsch]
  · rfl
  · rfl

theorem memoSingleFlight_of_eq {s s' : ClientState} (hI : MemoSingleFlight s)
    (h1 : s'.memoInflight = s.memoInflight) (h2 : s'.isSaving = s.isSaving) :
    MemoSingleFlight s' := by
  constructor
  · rw [h1]
    exact hI.1
  · intro hf
    rw [h1]
    exact hI.2 (h2 ▸ hf)

theorem memoSingleFlight_saveMemo (fa si : Bool) (s : ClientState)
    (hI : MemoSingleFlight s) : MemoSingleFlight (saveMemo fa si s) := by
  unfold saveMemo
  by_cases hs : s.isSaving = true
  · rw [if_pos hs]
    exact hI
  · rw [if_neg hs]
    have hemp : s.memoInflight = [] := hI.2 (by simpa using hs)
    dsimp only
    by_cases h1 : jsTrim s.editorContent = ""
    · rw [if_pos h1]
      exact hI
    · rw [if_neg h1]
      by_cases h2 : fa = true ∧ jsTrim s.editorContent = s.memoLastSavedContent
      · rw [if_pos h2]
        exact hI
      · rw [if_neg h2]
        rcases hsel : s.selectedId with _ | i
        · simp only [hsel]
          by_cases h3 : fa = true ∧ (jsTrim s.editorContent).length < 3
          · rw [if_pos h3]
            refine ⟨?_, fun _ => ?_⟩
            · rw [(saveMemoFinally_fields _).1]
              show s.memoInflight.length ≤ 1
              simp [hemp]
            · rw [(saveMemoFinally_fields _).1]
              exact hemp
          · rw [if_neg h3]
            refine ⟨?_, fun hf => ?_⟩
            · show (s.memoInflight ++ [_]).length ≤ 1
              simp [hemp]
            · exact absurd hf (by simp)
        · simp only [hsel]
          refine ⟨?_, fun hf => ?_⟩
          · show (s.memoInflight ++ [_]).length ≤ 1
            simp [hemp]
          · exact absurd hf (by simp)

theorem memoSingleFlight_respOk (row : MemoRow) (s : ClientState)
    (hI : MemoSingleFlight s) : MemoSingleFlight (memoRespOkStep row s) := by
  unfold memoRespOkStep
  rcases hfl : s.memoInflight with _ | ⟨r, rest⟩
  · exact hI
  · have hrest : rest = [] := by
      have hlen := hI.1
      rw [hfl] at hlen
      rw [List.length_cons] at hlen
      exact List.eq_nil_of_length_eq_zero (by omega)
    dsimp only
    refine ⟨?_, fun _ => ?_⟩
    · rw [(saveMemoFinally_fields _).1]
      show rest.length ≤ 1
      simp [hrest]
    · rw [(saveMemoFinally_fields _).1]
      exact hrest

theorem memoSingleFlight_respErr (u : Bool) (s : ClientState)
    (hI : MemoSingleFlight s) : MemoSingleFlight (memoRespErrStep u s) := by
  unfold memoRespErrStep
  rcases hfl : s.memoInflight with _ | ⟨r, rest⟩
  · exact hI
  · have hrest : rest = [] := by
      have hlen := hI.1
      rw [hfl] at hlen
      rw [List.length_cons] at hlen
      exact List.eq_nil_of_length_eq_zero (by omega)
    dsimp only
    refine ⟨?_, fun _ => ?_⟩
    · rw [(saveMemoFinally_fields _).1]
      show rest.length ≤ 1
      simp [hrest]
    · rw [(saveMemoFinally_fields _).1]
      exact hrest

theorem scheduleClipAutosave_memo_fields (s : ClientState) :
    (scheduleClipAutosave s).memoInflight = s.memoInflight ∧
    (scheduleClipAutosave s).isSaving = s.isSaving := by
  unfold scheduleClipAutosave
  split_ifs <;> exact ⟨rfl, rfl⟩

theorem saveClipFinally_memo_fields (s : ClientState) :
    (saveClipFinally s).memoInflight = s.memoInflight ∧
    (saveClipFinally s).isSaving = s.isSaving := by
  unfold saveClipFinally
  dsimp only
  split_ifs with h1
  · obtain ⟨a1, a2⟩ := scheduleClipAutosave_memo_fields
      { s with clipSaving := false, clipAutosavePending := false }
    exact ⟨a1, a2⟩
  · exact ⟨rfl, rfl⟩

theorem clipRespOk_memo_fields (i : Nat) (text : Option String) (s : ClientState) :
    (clipRespOkStep i text s).memoInflight = s.memoInflight ∧
    (clipRespOkStep i text s).isSaving = s.isSaving := by
  unfold clipRespOkStep
  rcases hg : s.clipInflight[i]? with _ | r
  · exact ⟨rfl, rfl⟩
  · dsimp only
    rcases r with ⟨txt, src⟩
    rcases src with _ | _ | _
    · exact saveClipFinally_memo_fields _
    · exact ⟨rfl, rfl⟩
    · exact ⟨rfl, rfl⟩

theorem clipRespErr_memo_fields (i : Nat) (u : Bool) (s : ClientState) :
    (clipRespErrStep i u s).memoInflight = s.memoInflight ∧
    (clipRespErrStep i u s).isSaving = s.isSaving := by
  unfold clipRespErrStep
  rcases hg : s.clipInflight[i]? with _ | r
  · exact ⟨rfl, rfl⟩
  · dsimp only
    rcases r with ⟨txt, src⟩
    rcases src with _ | _ | _ <;> cases u
    · exact saveClipFinally_memo_fields _
    · exact saveClipFinally_memo_fields _
    · exact ⟨rfl, rfl⟩
    · exact ⟨rfl, rfl⟩
    · exact ⟨rfl, rfl⟩
    · exact ⟨rfl, rfl⟩

theorem loadMemosResp_memo_fields (rows : List MemoRow) (s : ClientState) :
    (loadMemosRespStep rows s).memoInflight = s.memoInflight ∧
    (loadMemosRespStep rows s).isSaving = s.isSaving := by
  unfold loadMemosRespStep selectMemo
  rcases s.selectedId with _ | i <;> rcases rows with _ | ⟨f, r⟩ <;> exact ⟨rfl, rfl⟩

theorem memoSingleFlight_timerCallback (s : ClientState)
    (hI : MemoSingleFlight s) : MemoSingleFlight (memoTimerCallback s) := by
  unfold memoTimerCallback
  split_ifs with h
  · exact hI
  · exact memoSingleFlight_saveMemo true true s hI

/-- Every client step preserves the memo single-flight bookkeeping. -/
theorem memoSingleFlight_step (s : ClientState) (e : CEvent)
    (hI : MemoSingleFlight s) : MemoSingleFlight (clientStep s e) := by
  cases e with
  | editMemo v =>
      show MemoSingleFlight (scheduleAutosave { s with editorContent := v, editorDirty := true })
      exact memoSingleFlight_of_eq hI ((scheduleAutosave_fields _).2.1)
        ((scheduleAutosave_fields _).1)
  | saveClick => exact memoSingleFlight_saveMemo false false s hI
  | memoTimerFire =>
      show MemoSingleFlight (match s.autosaveTimer with
        | none => s
        | some _ => memoTimerCallback { s with autosaveTimer := none })
      rcases s.autosaveTimer with _ | d
      · exact hI
      · exact memoSingleFlight_timerCallback _ (memoSingleFlight_of_eq hI rfl rfl)
  | memoRespOk row => exact memoSingleFlight_respOk row s hI
  | memoRespErr u => exact memoSingleFlight_respErr u s hI
  | loadMemosResp rows =>
      exact memoSingleFlight_of_eq hI (loadMemosResp_memo_fields rows s).1
        (loadMemosResp_memo_fields rows s).2
  | selectMemoClick i =>
      show MemoSingleFlight (match s.memos[i]? with
        | none => s
        | some m => selectMemo m s)
      rcases s.memos[i]? with _ | m
      · exact hI
      · exact memoSingleFlight_of_eq hI rfl rfl
  | editClip v =>
      show MemoSingleFlight (scheduleClipAutosave { s with clipText := v })
      exact memoSingleFlight_of_eq hI ((scheduleClipAutosave_memo_fields _).1)
        ((scheduleClipAutosave_memo_fields _).2)
  | clipSaveClick =>
      show MemoSingleFlight (saveClip s)
      unfold saveClip
      split_ifs
      · exact hI
      · exact memoSingleFlight_of_eq hI rfl rfl
  | clipClearClick =>
      show MemoSingleFlight (clearClip s)
      unfold clearClip
      split_ifs
      · exact hI
      · exact memoSingleFlight_of_eq hI rfl rfl
  | clipTimerFire =>
      show MemoSingleFlight (match s.clipAutosaveTimer with
        | none => s
        | some _ => clipTimerCallback { s with clipAutosaveTimer := none })
      rcases s.clipAutosaveTimer with _ | d
      · exact hI
      · unfold clipTimerCallback
        split_ifs
        · exact memoSingleFlight_of_eq hI rfl rfl
        · exact memoSingleFlight_of_eq hI rfl rfl
        · exact memoSingleFlight_of_eq hI rfl rfl
  | clipRespOk i text =>
      exact memoSingleFlight_of_eq hI (clipRespOk_memo_fields i text s).1
        (clipRespOk_memo_fields i text s).2
  | clipRespErr i u =>
      exact memoSingleFlight_of_eq hI (clipRespErr_memo_fields i u s).1
        (clipRespErr_memo_fields i u s).2

/-! Claim C1. -/

/-- Claim C1, counterexample.  The claim asserts single-flight for the clip
draft across all its write paths, and exactly one follow-up save after an
edit arrives mid-flight.  Both parts fail on the code.  (1) The clip
autosave timer callback issues its POST without setting `clipSaving`, and
`saveClip` only checks `clipSaving`: after an edit schedules the clip timer,
the timer fires (one request in flight), and a manual save click then issues
a second concurrent request — two clip saves in flight at once.  (2) For the
memo draft, when an edit arrives mid-flight and the save then succeeds, the
success path reconciles the canonical record over the editor (discarding the
mid-flight edit), clears the dirty flag, and the pending flag is consumed
without scheduling anything: no follow-up save at all (no request in flight,
no timer, clean draft). -/
theorem c1_counterexample :
    (clientRun [.editClip "a", .clipTimerFire, .clipSaveClick]).clipInflight.length = 2 ∧
    ((clientRun [.editMemo "abc", .memoTimerFire, .editMemo "abcd",
        .memoRespOk ⟨1, "abc", 0, 0⟩]).memoInflight = [] ∧
      (clientRun [.editMemo "abc", .memoTimerFire, .editMemo "abcd",
        .memoRespOk ⟨1, "abc", 0, 0⟩]).autosaveTimer = none ∧
      (clientRun [.editMemo "abc", .memoTimerFire, .editMemo "abcd",
        .memoRespOk ⟨1, "abc", 0, 0⟩]).editorDirty = false ∧
      (clientRun [.editMemo "abc", .memoTimerFire, .editMemo "abcd",
        .memoRespOk ⟨1, "abc", 0, 0⟩]).editorContent = "abc") := by
  refine ⟨by decide, by decide, by decide, by decide, by decide⟩

/-- Claim C1, amended: for the memo draft, at most one save request is in
flight at any instant, in every reachable client state (the `isSaving` guard
serializes all memo write paths); an edit arriving mid-flight sets the
pending flag and results in at most one follow-up save being scheduled when
the in-flight save resolves — none when it succeeded, since success
reconciles the canonical record and clears the dirty flag — never one per
edit.  For the clip draft single-flight fails: the autosave timer callback
and the clear path neither set nor check `clipSaving`, so a manual clip save
can overlap them (two clip requests in flight, as the counterexample
shows). -/
theorem c1_amended_memo_single_flight :
    ∀ tr : List CEvent, (clientRun tr).memoInflight.length ≤ 1 := by
  have hgen : ∀ (tr : List CEvent) (s : ClientState),
      MemoSingleFlight s → MemoSingleFlight (tr.foldl clientStep s) := by
    intro tr
    induction tr with
    | nil => exact fun s hs => hs
    | cons e rest ih => exact fun s hs => ih _ (memoSingleFlight_step s e hs)
  intro tr
  exact (hgen tr clientInit ⟨by simp [clientInit], fun _ => rfl⟩).1

/-! Claim C2. -/

/-- Claim C2, counterexample.  The claim says that when the in-flight save
completes with the draft still dirty, a new save is triggered immediately,
without waiting a fresh debounce window.  On the code the completion path
calls `scheduleAutosave()`, which starts a fresh timer with the full
AUTOSAVE_DELAY_MS: after an autosave of "abc" goes in flight, an edit
arrives mid-flight (pending flag set), and the save fails; at completion no
request is in flight — instead a fresh full-delay debounce timer was
started, so the follow-up save does incur another full autosave delay. -/
theorem c2_counterexample :
    (clientRun [.editMemo "abc", .memoTimerFire, .editMemo "abcd",
        .memoRespErr false]).memoInflight = [] ∧
    (clientRun [.editMemo "abc", .memoTimerFire, .editMemo "abcd",
        .memoRespErr false]).autosaveTimer = some AUTOSAVE_DELAY_MS ∧
    (clientRun [.editMemo "abc", .memoTimerFire, .editMemo "abcd",
        .memoRespErr false]).editorDirty = true := by
  refine ⟨by decide, by decide, by decide⟩

/-- Claim C2, amended: if an edit arrives while a memo save is in flight
(with a session token present), the pending flag is set; and when the
in-flight save completes unsuccessfully with the draft still dirty, the
completion path immediately starts a fresh full debounce timer
(AUTOSAVE_DELAY_MS) — the follow-up save is scheduled at completion without
requiring a new edit, but it fires only after that full debounce delay, and
no request is issued at completion itself. -/
theorem c2_amended (s s2 : ClientState) (v : String) (r : MemoReq)
    (rest : List MemoReq)
    (htok : s.token = true) (hsav : s.isSaving = true)
    (hin : s2.memoInflight = r :: rest) (hpend : s2.memoAutosavePending = true)
    (hdirty : s2.editorDirty = true) (htok2 : s2.token = true) :
    (clientStep s (.editMemo v)).memoAutosavePending = true ∧
    (clientStep s2 (.memoRespErr false)).autosaveTimer = some AUTOSAVE_DELAY_MS ∧
    (clientStep s2 (.memoRespErr false)).memoInflight = rest := by
  refine ⟨?_, ?_, ?_⟩
  · show (scheduleAutosave { s with editorContent := v, editorDirty := true }).memoAutosavePending = true
    unfold scheduleAutosave
    dsimp only
    simp [htok, hsav]
  · show (memoRespErrStep false s2).autosaveTimer = some AUTOSAVE_DELAY_MS
    unfold memoRespErrStep
    rw [hin]
    dsimp only
    unfold saveMemoFinally scheduleAutosave
    dsimp only
    simp [hpend, hdirty, htok2]
  · show (memoRespErrStep false s2).memoInflight = rest
    unfold memoRespErrStep
    rw [hin]
    dsimp only
    rw [(saveMemoFinally_fields _).1]

/-- Witness for `c2_amended`: the mid-flight state after an autosave of
"abc" starts, and the state after the further edit "abcd" set the pending
flag. -/
theorem c2_witness :
    ((clientRun [.editMemo "abc", .memoTimerFire]).token = true ∧
      (clientRun [.editMemo "abc", .memoTimerFire]).isSaving = true ∧
      (clientRun [.editMemo "abc", .memoTimerFire, .editMemo "abcd"]).memoInflight =
        [⟨"abc", none, true, true⟩] ∧
      (clientRun [.editMemo "abc", .memoTimerFire, .editMemo "abcd"]).memoAutosavePending = true ∧
      (clientRun [.editMemo "abc", .memoTimerFire, .editMemo "abcd"]).editorDirty = true ∧
      (clientRun [.editMemo "abc", .memoTimerFire, .editMemo "abcd"]).token = true) ∧
    ((clientStep (clientRun [.editMemo "abc", .memoTimerFire]) (.editMemo "x")).memoAutosavePending = true ∧
      (clientStep (clientRun [.editMemo "abc", .memoTimerFire, .editMemo "abcd"])
        (.memoRespErr false)).autosaveTimer = some AUTOSAVE_DELAY_MS ∧
      (clientStep (clientRun [.editMemo "abc", .memoTimerFire, .editMemo "abcd"])
        (.memoRespErr false)).memoInflight = []) :=
  ⟨⟨by decide, by decide, by decide, by decide, by decide, by decide⟩,
    c2_amended (clientRun [.editMemo "abc", .memoTimerFire])
      (clientRun [.editMemo "abc", .memoTimerFire, .editMemo "abcd"])
      "x" ⟨"abc", none, true, true⟩ []
      (by decide) (by decide) (by decide) (by decide) (by decide) (by decide)⟩

/-! Claim C7. -/

/-- Claim C7, counterexample.  The claim says no autosave is silently
retried while no session token is present.  But a debounce timer scheduled
before the failure survives it: an edit schedules the timer, a manual save
goes in flight, the save fails 401 (token cleared, dirty still set), and
when the stale timer fires, the autosave callback issues one more silent
save request — a network save attempt while no session token is present. -/
theorem c7_counterexample :
    (clientRun [.editMemo "abc", .saveClick, .memoRespErr true,
        .memoTimerFire]).token = false ∧
    (clientRun [.editMemo "abc", .saveClick, .memoRespErr true,
        .memoTimerFire]).memoInflight = [⟨"abc", none, true, true⟩] := by
  refine ⟨by decide, by decide⟩

/-- Claim C7, amended: when an in-flight memo save fails with HTTP 401, the
stored credential is cleared, the dirty flag and the last-acknowledged
snapshot are untouched (the draft is not marked saved), no new request is
issued at completion, and the completion path schedules no autosave while no
token is present (`scheduleAutosave` returns early, leaving the timer
unchanged); a debounce timer that was already scheduled before the failure
may however still fire once and issue one further silent unauthenticated
save attempt, as the counterexample shows. -/
theorem c7_amended (s : ClientState) (r : MemoReq) (rest : List MemoReq)
    (hin : s.memoInflight = r :: rest) :
    (clientStep s (.memoRespErr true)).token = false ∧
    (clientStep s (.memoRespErr true)).editorDirty = s.editorDirty ∧
    (clientStep s (.memoRespErr true)).memoLastSavedContent = s.memoLastSavedContent ∧
    (clientStep s (.memoRespErr true)).autosaveTimer = s.autosaveTimer ∧
    (clientStep s (.memoRespErr true)).memoInflight = rest := by
  show (memoRespErrStep true s).token = false ∧
    (memoRespErrStep true s).editorDirty = s.editorDirty ∧
    (memoRespErrStep true s).memoLastSavedContent = s.memoLastSavedContent ∧
    (memoRespErrStep true s).autosaveTimer = s.autosaveTimer ∧
    (memoRespErrStep true s).memoInflight = rest
  unfold memoRespErrStep
  rw [hin]
  dsimp only
  obtain ⟨f1, f2, f3, f4, f5, f6⟩ := saveMemoFinally_fields
    { s with token := false, memoInflight := rest }
  refine ⟨f5, f3, f4, ?_, f1⟩
  exact saveMemoFinally_timer_no_token { s with token := false, memoInflight := rest } rfl

/-- Witness for `c7_amended`: the state with the manual save of "abc" in
flight; the 401 completion clears the token, keeps the draft dirty and the
snapshot empty, and leaves the already-scheduled timer untouched. -/
theorem c7_witness :
    (clientRun [.editMemo "abc", .saveClick]).memoInflight =
      [⟨"abc", none, false, false⟩] ∧
    ((clientStep (clientRun [.editMemo "abc", .saveClick]) (.memoRespErr true)).token = false ∧
      (clientStep (clientRun [.editMemo "abc", .saveClick]) (.memoRespErr true)).editorDirty =
        (clientRun [.editMemo "abc", .saveClick]).editorDirty ∧
      (clientStep (clientRun [.editMemo "abc", .saveClick]) (.memoRespErr true)).memoLastSavedContent =
        (clientRun [.editMemo "abc", .saveClick]).memoLastSavedContent ∧
      (clientStep (clientRun [.editMemo "abc", .saveClick]) (.memoRespErr true)).autosaveTimer =
        (clientRun [.editMemo "abc", .saveClick]).autosaveTimer ∧
      (clientStep (clientRun [.editMemo "abc", .saveClick]) (.memoRespErr true)).memoInflight = []) :=
  ⟨by decide,
    c7_amended (clientRun [.editMemo "abc", .saveClick]) ⟨"abc", none, false, false⟩ []
      (by decide)⟩

/-! Claim C9. -/

/-- Claim C9, counterexample.  The claim says a debounce timer firing while
the draft content equals the last-acknowledged snapshot issues zero network
calls.  The memo idempotence guard compares the TRIMMED content against the
snapshot, so they can differ while the raw content equals the snapshot:
select a memo whose stored content is "a " (content with a trailing space,
creatable through the API directly), edit away and back to "a " — now
content equals the snapshot "a ", nothing is in flight, yet the timer firing
issues a PUT request because trim("a ") = "a" differs from the snapshot. -/
theorem c9_counterexample :
    (clientRun [.loadMemosResp [⟨1, "a ", 0, 0⟩], .editMemo "a x",
        .editMemo "a "]).editorContent =
      (clientRun [.loadMemosResp [⟨1, "a ", 0, 0⟩], .editMemo "a x",
        .editMemo "a "]).memoLastSavedContent ∧
    (clientRun [.loadMemosResp [⟨1, "a ", 0, 0⟩], .editMemo "a x",
        .editMemo "a "]).memoInflight = [] ∧
    (clientStep (clientRun [.loadMemosResp [⟨1, "a ", 0, 0⟩], .editMemo "a x",
        .editMemo "a "]) .memoTimerFire).memoInflight.length = 1 := by
  refine ⟨by decide, by decide, by decide⟩

/-- Claim C9, amended: autosave is idempotent with respect to the comparison
the code actually performs — for the memo draft, a debounce timer firing
while the TRIMMED draft content equals the last-acknowledged snapshot issues
zero network calls (likewise while the draft is clean); for the clip draft,
a timer firing while the clip text equals the last saved text issues zero
network calls; and a successful memo save completion leaves the draft clean,
so subsequent timer firings with no intervening edits issue no request. -/
theorem c9_amended (s s2 s3 s4 : ClientState) (row : MemoRow) (r : MemoReq)
    (rest : List MemoReq)
    (hm : jsTrim s.editorContent = s.memoLastSavedContent)
    (hc : s2.clipText = s2.clipLastSavedText)
    (hd : s3.editorDirty = false)
    (hin : s4.memoInflight = r :: rest) :
    (clientStep s .memoTimerFire).memoInflight = s.memoInflight ∧
    (clientStep s2 .clipTimerFire).clipInflight = s2.clipInflight ∧
    (clientStep s3 .memoTimerFire).memoInflight = s3.memoInflight ∧
    (clientStep s4 (.memoRespOk row)).editorDirty = false := by
  refine ⟨?_, ?_, ?_, ?_⟩
  · show (match s.autosaveTimer with
      | none => s
      | some _ => memoTimerCallback { s with autosaveTimer := none }).memoInflight =
        s.memoInflight
    rcases s.autosaveTimer with _ | d
    · rfl
    · unfold memoTimerCallback
      dsimp only
      split_ifs with h1
      · rfl
      · unfold saveMemo
        dsimp only
        by_cases h2 : s.isSaving = true
        · rw [if_pos h2]
        · rw [if_neg h2]
          by_cases h3 : jsTrim s.editorContent = ""
          · rw [if_pos h3]
          · rw [if_neg h3, if_pos ⟨rfl, hm⟩]
  · show (match s2.clipAutosaveTimer with
      | none => s2
      | some _ => clipTimerCallback { s2 with clipAutosaveTimer := none }).clipInflight =
        s2.clipInflight
    rcases s2.clipAutosaveTimer with _ | d
    · rfl
    · unfold clipTimerCallback
      dsimp only
      by_cases h1 : s2.clipSaving = true
      · rw [if_pos h1]
      · rw [if_neg h1, if_pos hc]
  · show (match s3.autosaveTimer with
      | none => s3
      | some _ => memoTimerCallback { s3 with autosaveTimer := none }).memoInflight =
        s3.memoInflight
    rcases s3.autosaveTimer with _ | d
    · rfl
    · unfold memoTimerCallback
      dsimp only
      split_ifs with h1
      · rfl
      · rw [hd] at h1
        simp at h1
  · show (memoRespOkStep row s4).editorDirty = false
    unfold memoRespOkStep
    rw [hin]
    dsimp only
    exact (saveMemoFinally_fields _).2.2.1

/-- Witness for `c9_amended`: the clean state right after a successful save
of "abc" (trimmed content equals the snapshot, draft clean, clip text equals
its last saved text) — timer firings there issue no request — together with
the mid-flight state whose success completion clears the dirty flag. -/
theorem c9_witness :
    (jsTrim (clientRun [.editMemo "abc", .memoTimerFire, .memoRespOk ⟨1, "abc", 3, 3⟩]).editorContent =
      (clientRun [.editMemo "abc", .memoTimerFire, .memoRespOk ⟨1, "abc", 3, 3⟩]).memoLastSavedContent ∧
    (clientRun [.editMemo "abc", .memoTimerFire, .memoRespOk ⟨1, "abc", 3, 3⟩]).clipText =
      (clientRun [.editMemo "abc", .memoTimerFire, .memoRespOk ⟨1, "abc", 3, 3⟩]).clipLastSavedText ∧
    (clientRun [.editMemo "abc", .memoTimerFire, .memoRespOk ⟨1, "abc", 3, 3⟩]).editorDirty = false ∧
    (clientRun [.editMemo "abc", .memoTimerFire]).memoInflight = [⟨"abc", none, true, true⟩]) ∧
    ((clientStep (clientRun [.editMemo "abc", .memoTimerFire, .memoRespOk ⟨1, "abc", 3, 3⟩])
        .memoTimerFire).memoInflight =
      (clientRun [.editMemo "abc", .memoTimerFire, .memoRespOk ⟨1, "abc", 3, 3⟩]).memoInflight ∧
    (clientStep (clientRun [.editMemo "abc", .memoTimerFire, .memoRespOk ⟨1, "abc", 3, 3⟩])
        .clipTimerFire).clipInflight =
      (clientRun [.editMemo "abc", .memoTimerFire, .memoRespOk ⟨1, "abc", 3, 3⟩]).clipInflight ∧
    (clientStep (clientRun [.editMemo "abc", .memoTimerFire, .memoRespOk ⟨1, "abc", 3, 3⟩])
        .memoTimerFire).memoInflight =
      (clientRun [.editMemo "abc", .memoTimerFire, .memoRespOk ⟨1, "abc", 3, 3⟩]).memoInflight ∧
    (clientStep (clientRun [.editMemo "abc", .memoTimerFire]) (.memoRespOk ⟨1, "abc", 3, 3⟩)).editorDirty =
      false) :=
  ⟨⟨by decide, by decide, by decide, by decide⟩,
    c9_amended (clientRun [.editMemo "abc", .memoTimerFire, .memoRespOk ⟨1, "abc", 3, 3⟩])
      (clientRun [.editMemo "abc", .memoTimerFire, .memoRespOk ⟨1, "abc", 3, 3⟩])
      (clientRun [.editMemo "abc", .memoTimerFire, .memoRespOk ⟨1, "abc", 3, 3⟩])
      (clientRun [.editMemo "abc", .memoTimerFire])
      ⟨1, "abc", 3, 3⟩ ⟨"abc", none, true, true⟩ []
      (by decide) (by decide) (by decide) (by decide)⟩
